import Mathlib

/-!
# anirip: the media post-processing steps of `common.go`

A shallow embedding of `trimMKV`, `mergeSubtitles`, `getVideoLength` and
`getVideoFrameRate`.  Go's `float64` is modelled exactly (IEEE-754 binary64,
round to nearest, ties to even) over integers, Go's `int` is the 64-bit
two's-complement integer, and the operating system (file removal, renaming,
process execution, file writing) is a parameter of the pipeline whose calls
are recorded, with their outcome, in an event log.
-/

namespace Anirip

/-! ## Go `float64` -/

/-- A `float64`: `finite neg m e` is `(-1)^neg * m * 2^e`.  Values produced by
`Float64.round` are canonical: `m < 2^53`, `-1074 ≤ e ≤ 971`, and `2^52 ≤ m`
unless `e = -1074` (subnormals and the two zeros). -/
inductive Float64 where
  | finite (neg : Bool) (m : Nat) (e : Int)
  | inf (neg : Bool)
  | nan
deriving DecidableEq, Repr

/-- The non-negative rational `a / b` rounded to the nearest natural number,
ties to the even one. -/
def roundHalfEven (a b : Nat) : Nat :=
  if 2 * (a % b) < b then a / b
  else if b < 2 * (a % b) then a / b + 1
  else if (a / b) % 2 = 0 then a / b else a / b + 1

/-- The number of binary digits of `n`, computed with `fuel` halvings at most. -/
def bitLenAux : Nat → Nat → Nat
  | 0, _ => 0
  | fuel + 1, n => if n = 0 then 0 else bitLenAux fuel (n / 2) + 1

/-- The number of binary digits of `n`: `2^(bitLen n - 1) ≤ n < 2^(bitLen n)` for `n > 0`. -/
def bitLen (n : Nat) : Nat := bitLenAux n n

/-- The integer `floor (log2 (num / den))`, for `num, den > 0`. -/
def floorLog2 (num den : Nat) : Int :=
  if den * 2 ^ ((bitLen num : Int) - (bitLen den : Int)).toNat
      ≤ num * 2 ^ ((bitLen den : Int) - (bitLen num : Int)).toNat
  then (bitLen num : Int) - (bitLen den : Int)
  else (bitLen num : Int) - (bitLen den : Int) - 1

/-- The rational `num / den / 2^e` rounded to the nearest natural number, ties to even. -/
def scaledRound (num den : Nat) (e : Int) : Nat :=
  roundHalfEven (num * 2 ^ (-e).toNat) (den * 2 ^ e.toNat)

/-- IEEE-754 round-to-nearest-even of the rational `(-1)^neg * num / den`
(`den > 0`) to binary64: 53 bits of precision, gradual underflow below
`2^-1022`, overflow to infinity from `2^1024`. -/
def Float64.round (neg : Bool) (num den : Nat) : Float64 :=
  if num = 0 then .finite neg 0 (-1074)
  else if scaledRound num den (max (floorLog2 num den - 52) (-1074)) = 2 ^ 53 then
    (if 971 < max (floorLog2 num den - 52) (-1074) + 1 then .inf neg
     else .finite neg (2 ^ 52) (max (floorLog2 num den - 52) (-1074) + 1))
  else if 971 < max (floorLog2 num den - 52) (-1074) then .inf neg
  else .finite neg (scaledRound num den (max (floorLog2 num den - 52) (-1074)))
    (max (floorLog2 num den - 52) (-1074))

/-- Go's conversion `float64(n)` of an integer. -/
def Float64.ofInt (n : Int) : Float64 :=
  Float64.round (decide (n < 0)) n.natAbs 1

/-- The exact rational value of a finite `float64` (zero for the others). -/
def Float64.toRat : Float64 → ℚ
  | .finite neg m e => (if neg then -1 else 1) * (m : ℚ) * (2 : ℚ) ^ e
  | _ => 0

/-- Whether the value is neither an infinity nor a NaN. -/
def Float64.isFinite : Float64 → Bool
  | .finite _ _ _ => true
  | _ => false

/-- Whether the value is `+0` or `-0`. -/
def Float64.isZero : Float64 → Bool
  | .finite _ m _ => m == 0
  | _ => false

/-- Go's `x * y` on `float64`. -/
def Float64.mul : Float64 → Float64 → Float64
  | .nan, _ => .nan
  | _, .nan => .nan
  | .inf n1, .inf n2 => .inf (xor n1 n2)
  | .inf n1, .finite n2 m2 _ => if m2 = 0 then .nan else .inf (xor n1 n2)
  | .finite n1 m1 _, .inf n2 => if m1 = 0 then .nan else .inf (xor n1 n2)
  | .finite n1 m1 e1, .finite n2 m2 e2 =>
      Float64.round (xor n1 n2) (m1 * m2 * 2 ^ (e1 + e2).toNat) (2 ^ (-(e1 + e2)).toNat)

/-- Go's `x / y` on `float64`: division by zero is not an error, it gives an
infinity, or NaN for `0 / 0`. -/
def Float64.div : Float64 → Float64 → Float64
  | .nan, _ => .nan
  | _, .nan => .nan
  | .inf _, .inf _ => .nan
  | .inf n1, .finite n2 _ _ => .inf (xor n1 n2)
  | .finite n1 _ _, .inf n2 => .finite (xor n1 n2) 0 (-1074)
  | .finite n1 m1 e1, .finite n2 m2 e2 =>
      if m2 = 0 then (if m1 = 0 then .nan else .inf (xor n1 n2))
      else Float64.round (xor n1 n2) (m1 * 2 ^ (e1 - e2).toNat) (m2 * 2 ^ (e2 - e1).toNat)

/-- Go's 64-bit `int`: the representative of `n` modulo `2^64` in `[-2^63, 2^63)`. -/
def wrapInt (n : Int) : Int :=
  (n + 2 ^ 63) % 2 ^ 64 - 2 ^ 63

/-- Go's conversion `int(x)` of a `float64`: the fraction is discarded
(truncation towards zero).  For a value that does not fit, NaN included, the
language leaves the result to the implementation; amd64 gives `-2^63`. -/
def Float64.toInt : Float64 → Int
  | .finite neg m e =>
      if m * 2 ^ e.toNat / 2 ^ (-e).toNat < 2 ^ 63 then
        (if neg then -((m * 2 ^ e.toNat / 2 ^ (-e).toNat : Nat) : Int)
         else ((m * 2 ^ e.toNat / 2 ^ (-e).toNat : Nat) : Int))
      else -(2 ^ 63)
  | _ => -(2 ^ 63)

/-! ## Go `strings` and `strconv` -/

/-- Go's `strings.Replace(s, "\r\n", "", -1)`: every carriage-return/line-feed
pair is deleted, scanning from the left. -/
def replaceCRLF : List Char → List Char
  | [] => []
  | [c] => [c]
  | c :: d :: rest =>
      if c = '\r' ∧ d = '\n' then replaceCRLF rest else c :: replaceCRLF (d :: rest)

/-- The call `strings.Replace(s, "\r\n", "", -1)` on a string. -/
def stringsReplace (s : String) : String :=
  String.mk (replaceCRLF s.data)

/-- Go's `strings.Split(s, sep)` for a one-character separator: the pieces
between the separators, so that `n` separators give `n + 1` pieces and the
empty string gives one empty piece. -/
def splitChars (sep : Char) : List Char → List (List Char)
  | [] => [[]]
  | c :: cs =>
      if c = sep then [] :: splitChars sep cs
      else
        match splitChars sep cs with
        | [] => [[c]]
        | p :: ps => (c :: p) :: ps

/-- The call `strings.Split(s, "/")`. -/
def stringsSplit (s : String) : List String :=
  (splitChars '/' s.data).map String.mk

/-- The two ways `strconv.ParseFloat` fails: `strconv.ErrSyntax` and `strconv.ErrRange`. -/
inductive NumError where
  | invalid
  | outOfRange
deriving DecidableEq, Repr

/-- Whether the character is a decimal digit. -/
def isDigit (c : Char) : Bool :=
  decide ('0'.toNat ≤ c.toNat) && decide (c.toNat ≤ '9'.toNat)

/-- The value of a decimal digit. -/
def digitVal (c : Char) : Nat :=
  c.toNat - '0'.toNat

/-- Reads a run of decimal digits: the value accumulated onto `acc`, how many
digits were read on top of `n`, and the unread rest. -/
def readDigits : List Char → Nat → Nat → Nat × Nat × List Char
  | [], acc, n => (acc, n, [])
  | c :: cs, acc, n =>
      if isDigit c then readDigits cs (acc * 10 + digitVal c) (n + 1) else (acc, n, c :: cs)

/-- Reads the digits of an exponent the way `strconv` does: once the value has
reached 10000 further digits are consumed but no longer accumulated. -/
def readExponent : List Char → Nat → Nat → Nat × Nat × List Char
  | [], acc, n => (acc, n, [])
  | c :: cs, acc, n =>
      if isDigit c then
        readExponent cs (if acc < 10000 then acc * 10 + digitVal c else acc) (n + 1)
      else (acc, n, c :: cs)

/-- The optional exponent part of a decimal number: `none` when malformed,
otherwise the signed exponent (0 when there is no exponent part). -/
def readExponentPart : List Char → Option Int
  | [] => some 0
  | c :: cs =>
      if c = 'e' ∨ c = 'E' then
        match cs with
        | '+' :: ds =>
            (match readExponent ds 0 0 with
             | (v, n, []) => if n = 0 then none else some (v : Int)
             | _ => none)
        | '-' :: ds =>
            (match readExponent ds 0 0 with
             | (v, n, []) => if n = 0 then none else some (-(v : Int))
             | _ => none)
        | ds =>
            (match readExponent ds 0 0 with
             | (v, n, []) => if n = 0 then none else some (v : Int)
             | _ => none)
      else none

/-- An unsigned decimal number `digits [. digits] [e[+-]digits]` with at least
one mantissa digit, as the pair (mantissa, decimal exponent): its value is
`mantissa * 10 ^ exponent`. -/
def readUnsigned (s : List Char) : Option (Nat × Int) :=
  match readDigits s 0 0 with
  | (ip, nip, '.' :: rest) =>
      (match readDigits rest ip 0 with
       | (mant, nfp, rest2) =>
           if nip + nfp = 0 then none
           else (readExponentPart rest2).map (fun ex => (mant, ex - (nfp : Int))))
  | (ip, nip, rest) =>
      if nip = 0 then none else (readExponentPart rest).map (fun ex => (ip, ex))

/-- The special values `strconv.ParseFloat` accepts, ignoring case: `nan`,
and `inf` or `infinity` with an optional sign. -/
def parseSpecial (s : List Char) : Option Float64 :=
  if s.map Char.toLower = "nan".data then some .nan
  else if s.map Char.toLower = "inf".data ∨ s.map Char.toLower = "+inf".data
      ∨ s.map Char.toLower = "infinity".data ∨ s.map Char.toLower = "+infinity".data then
    some (.inf false)
  else if s.map Char.toLower = "-inf".data ∨ s.map Char.toLower = "-infinity".data then
    some (.inf true)
  else none

/-- The nearest `float64` to `(-1)^neg * mant * 10^ex`; a value that rounds to
an infinity is a range error. -/
def decimalToFloat (neg : Bool) (mant : Nat) (ex : Int) : Except NumError Float64 :=
  match Float64.round neg (mant * 10 ^ ex.toNat) (10 ^ (-ex).toNat) with
  | .finite n m e => .ok (.finite n m e)
  | _ => .error .outOfRange

/-- Go's `strconv.ParseFloat(s, 64)` for decimal input, as the library
documents it: the whole string must be a special value or a signed decimal
number, and the result is the nearest `float64`, ties to even.  (Hexadecimal
floating-point literals, accepted by later Go releases, are not modelled.) -/
def strconvParseFloat (s : String) : Except NumError Float64 :=
  match parseSpecial s.data with
  | some f => .ok f
  | none =>
      match s.data with
      | '+' :: rest =>
          (match readUnsigned rest with
           | some (mant, ex) => decimalToFloat false mant ex
           | none => .error .invalid)
      | '-' :: rest =>
          (match readUnsigned rest with
           | some (mant, ex) => decimalToFloat true mant ex
           | none => .error .invalid)
      | cs =>
          (match readUnsigned cs with
           | some (mant, ex) => decimalToFloat false mant ex
           | none => .error .invalid)

/-- The text `s` preceded by as many zeros as it lacks to `width` characters. -/
def padZeros (width : Nat) (s : String) : String :=
  String.mk (List.replicate (width - s.length) '0') ++ s

/-- Go's `strconv.FormatFloat(f, 'f', prec, 64)`: the exact value rounded to
`prec` decimals, ties to even, written without exponent; the sign is that of
the `float64`, also when the digits are all zero. -/
def strconvFormatFloat (f : Float64) (prec : Nat) : String :=
  match f with
  | .nan => "NaN"
  | .inf neg => if neg then "-Inf" else "+Inf"
  | .finite neg m e =>
      (if neg then "-" else "")
        ++ Nat.repr (roundHalfEven (m * 10 ^ prec * 2 ^ e.toNat) (2 ^ (-e).toNat) / 10 ^ prec)
        ++ (if prec = 0 then ""
            else "." ++ padZeros prec
              (Nat.repr (roundHalfEven (m * 10 ^ prec * 2 ^ e.toNat) (2 ^ (-e).toNat) % 10 ^ prec)))

/-! ## The operating system and the event log -/

deriving instance DecidableEq for Except

/-- A Go `error` value: one reported by the operating system or by a started
process, one of `strconv`, or an `anirip.Error{Message, Err}` wrapping another. -/
inductive GoError where
  | os (msg : String)
  | num (e : NumError)
  | anirip (message : String) (err : GoError)
deriving DecidableEq, Repr

/-- How a call ends: it returns a value with a nil error, it returns a non-nil
error, or the goroutine panics (a run-time error such as an index out of range). -/
inductive Outcome (α : Type) where
  | ok (a : α)
  | error (e : GoError)
  | panic (msg : String)
deriving DecidableEq, Repr

/-- One call into the operating system, with its outcome.  `remove` is
`os.Remove`, whose result the program never looks at; `rename` is
`anirip.Rename(src, dst, tries)`; `abs` is `filepath.Abs`; `run` is
`exec.Command(prog, args...)` with `Dir = dir`, run by `Output()`; `writeFile`
is `ioutil.WriteFile`. -/
inductive Event where
  | remove (path : String)
  | rename (src dst : String) (tries : Nat) (err : Option GoError)
  | abs (path : String) (res : Except GoError String)
  | run (prog : String) (args : List String) (dir : String) (res : Except GoError String)
  | writeFile (path data : String) (perm : Nat) (err : Option GoError)
deriving DecidableEq, Repr

/-- The operating system as the program sees it, over a state `σ` (the file
system and whatever else the started processes depend on).  The retrying
rename `anirip.Rename`, which lives in a package outside `common.go`, is one of
its operations.  `abs` is `filepath.Abs`: the program never changes its working
directory, so the absolute path depends on the path alone. -/
structure Sys (σ : Type) where
  remove : String → σ → σ
  rename : String → String → Nat → σ → Option GoError × σ
  abs : String → Except GoError String
  run : String → List String → String → σ → Except GoError String × σ
  writeFile : String → String → Nat → σ → Option GoError × σ

/-- The state of the operating system together with the calls made so far. -/
structure World (σ : Type) where
  os : σ
  log : List Event

/-- The world in state `s` before any call. -/
def World.init {σ : Type} (s : σ) : World σ :=
  { os := s, log := [] }

/-- The call `os.Remove(path)`; the error is discarded. -/
def osRemove {σ : Type} (sys : Sys σ) (path : String) (w : World σ) : World σ :=
  { os := sys.remove path w.os, log := w.log ++ [Event.remove path] }

/-- The call `anirip.Rename(src, dst, tries)`. -/
def aniripRename {σ : Type} (sys : Sys σ) (src dst : String) (tries : Nat) (w : World σ) :
    Option GoError × World σ :=
  ((sys.rename src dst tries w.os).1,
   { os := (sys.rename src dst tries w.os).2,
     log := w.log ++ [Event.rename src dst tries (sys.rename src dst tries w.os).1] })

/-- The call `filepath.Abs(path)`. -/
def filepathAbs {σ : Type} (sys : Sys σ) (path : String) (w : World σ) :
    Except GoError String × World σ :=
  (sys.abs path, { os := w.os, log := w.log ++ [Event.abs path (sys.abs path)] })

/-- The command `exec.Command(prog, args...)` with `cmd.Dir = dir`, run by `cmd.Output()`. -/
def cmdOutput {σ : Type} (sys : Sys σ) (prog : String) (args : List String) (dir : String)
    (w : World σ) : Except GoError String × World σ :=
  ((sys.run prog args dir w.os).1,
   { os := (sys.run prog args dir w.os).2,
     log := w.log ++ [Event.run prog args dir (sys.run prog args dir w.os).1] })

/-- The call `ioutil.WriteFile(path, data, perm)`. -/
def ioutilWriteFile {σ : Type} (sys : Sys σ) (path data : String) (perm : Nat) (w : World σ) :
    Option GoError × World σ :=
  ((sys.writeFile path data perm w.os).1,
   { os := (sys.writeFile path data perm w.os).2,
     log := w.log ++ [Event.writeFile path data perm (sys.writeFile path data perm w.os).1] })

/-! ## `common.go` -/

/-- `getVideoLength`: uses ffprobe to find the length of a video and returns it in ms. -/
def getVideoLength {σ : Type} (sys : Sys σ) (fileName engineDir tempDir : String)
    (w : World σ) : Outcome Int × World σ :=
  match filepathAbs sys (engineDir ++ "\\ffprobe.exe") w with
  | (.error err, w1) =>
      (.error (.anirip ("Unable to find ffprobe.exe in \\" ++ engineDir ++ "\\ directory") err), w1)
  | (.ok ffprobe, w1) =>
      match cmdOutput sys ffprobe
          ["-v", "error", "-show_entries", "format=duration",
           "-of", "default=noprint_wrappers=1:nokey=1", fileName] tempDir w1 with
      | (.error err, w2) =>
          (.error (.anirip ("There was an error measuring " ++ fileName) err), w2)
      | (.ok output, w2) =>
          match strconvParseFloat (stringsReplace output) with
          | .error err =>
              (.error (.anirip ("There was an error parsing the length of " ++ fileName)
                (.num err)), w2)
          | .ok length => (.ok (Float64.toInt (Float64.mul length (Float64.ofInt 1000))), w2)

/-- `getVideoFrameRate`: uses ffprobe to get the exact framerate of the video.
The two pieces of the fraction are read by index, `frameRateArray[0]` and
`frameRateArray[1]`; an index past the end of the slice is a run-time panic. -/
def getVideoFrameRate {σ : Type} (sys : Sys σ) (fileName engineDir tempDir : String)
    (w : World σ) : Outcome Float64 × World σ :=
  match filepathAbs sys (engineDir ++ "\\ffprobe.exe") w with
  | (.error err, w1) =>
      (.error (.anirip ("Unable to find ffprobe.exe in \\" ++ engineDir ++ "\\ directory") err), w1)
  | (.ok ffprobe, w1) =>
      match cmdOutput sys ffprobe
          ["-v", "error", "-select_streams", "v:0", "-show_entries", "stream=avg_frame_rate",
           "-of", "default=noprint_wrappers=1:nokey=1", fileName] tempDir w1 with
      | (.error err, w2) =>
          (.error (.anirip ("There was an error measuring " ++ fileName) err), w2)
      | (.ok output, w2) =>
          match (stringsSplit (stringsReplace output))[0]? with
          | none => (.panic "index out of range [0]", w2)
          | some num =>
              match strconvParseFloat num with
              | .error err =>
                  (.error (.anirip
                    ("There was an error parsing the numerator of our framerate for " ++ fileName)
                    (.num err)), w2)
              | .ok numerator =>
                  match (stringsSplit (stringsReplace output))[1]? with
                  | none => (.panic "index out of range [1]", w2)
                  | some den =>
                      match strconvParseFloat den with
                      | .error err =>
                          (.error (.anirip
                            ("There was an error parsing the denominator of our framerate for "
                              ++ fileName) (.num err)), w2)
                      | .ok denominator => (.ok (Float64.div numerator denominator), w2)

/-- `trimMKV`: trims the first couple seconds off of the video to remove any logos. -/
def trimMKV {σ : Type} (sys : Sys σ) (adLength estKeyFrame : Int) (engineDir tempDir : String)
    (w : World σ) : Outcome Unit × World σ :=
  match aniripRename sys (tempDir ++ "\\episode.mkv") (tempDir ++ "\\untrimmed.episode.mkv") 10
      (osRemove sys (tempDir ++ "\\" ++ "list.episode.txt")
        (osRemove sys (tempDir ++ "\\" ++ "video.episode.mkv")
          (osRemove sys (tempDir ++ "\\" ++ "prefix.episode.mkv")
            (osRemove sys (tempDir ++ "\\" ++ "untrimmed.episode.mkv") w)))) with
  | (some err, w1) => (.error err, w1)
  | (none, w1) =>
  match getVideoLength sys "untrimmed.episode.mkv" engineDir tempDir w1 with
  | (.error err, w2) => (.error err, w2)
  | (.panic msg, w2) => (.panic msg, w2)
  | (.ok untrimmedLength, w2) =>
  match filepathAbs sys (engineDir ++ "\\ffmpeg.exe") w2 with
  | (.error err, w3) =>
      (.error (.anirip ("Unable to find ffmpeg.exe in \\" ++ engineDir ++ "\\ directory") err), w3)
  | (.ok ffmpeg, w3) =>
  match cmdOutput sys ffmpeg
      ["-ss", strconvFormatFloat (Float64.div (Float64.ofInt estKeyFrame) (Float64.ofInt 1000)) 3,
       "-i", "untrimmed.episode.mkv",
       "-c", "copy",
       "-avoid_negative_ts", "1", "-y",
       "video.episode.mkv"] tempDir w3 with
  | (.error err, w4) =>
      (.error (.anirip "There was an error while creating the video clip" err), w4)
  | (.ok _, w4) =>
  match getVideoLength sys "video.episode.mkv" engineDir tempDir w4 with
  | (.error err, w5) => (.error err, w5)
  | (.panic msg, w5) => (.panic msg, w5)
  | (.ok videoLength, w5) =>
  match getVideoFrameRate sys "video.episode.mkv" engineDir tempDir w5 with
  | (.error err, w6) => (.error err, w6)
  | (.panic msg, w6) => (.panic msg, w6)
  | (.ok frameRate, w6) =>
  match cmdOutput sys ffmpeg
      ["-ss", strconvFormatFloat (Float64.div (Float64.ofInt adLength) (Float64.ofInt 1000)) 3,
       "-i", "untrimmed.episode.mkv",
       "-t", strconvFormatFloat
          (Float64.div
            (Float64.ofInt (wrapInt (wrapInt (untrimmedLength - videoLength) - adLength)))
            (Float64.ofInt 1000)) 3,
       "-crf", "5",
       "-vsync", "1",
       "-r", strconvFormatFloat frameRate 8,
       "-c:a", "aac", "-y",
       "prefix.episode.mkv"] tempDir w6 with
  | (.error err, w7) =>
      (.error (.anirip "There was an error while creating the prefix clip" err), w7)
  | (.ok _, w7) =>
  match ioutilWriteFile sys (tempDir ++ "\\" ++ "list.episode.txt")
      "file 'prefix.episode.mkv'\r\nfile 'video.episode.mkv'" 420 w7 with
  | (some err, w8) =>
      (.error (.anirip "There was an error while creating list.episode.txt" err), w8)
  | (none, w8) =>
  match cmdOutput sys ffmpeg
      ["-f", "concat",
       "-i", "list.episode.txt",
       "-c", "copy", "-y",
       "episode.mkv"] tempDir w8 with
  | (.error err, w9) =>
      (.error (.anirip "There was an error while merging video and prefix" err), w9)
  | (.ok _, w9) =>
      (.ok (),
       osRemove sys (tempDir ++ "\\" ++ "list.episode.txt")
         (osRemove sys (tempDir ++ "\\" ++ "video.episode.mkv")
           (osRemove sys (tempDir ++ "\\" ++ "prefix.episode.mkv")
             (osRemove sys (tempDir ++ "\\" ++ "untrimmed.episode.mkv") w9))))

/-- `mergeSubtitles`: merges a VIDEO.mkv and a VIDEO.ass. -/
def mergeSubtitles {σ : Type} (sys : Sys σ) (audioLang subtitleLang engineDir tempDir : String)
    (w : World σ) : Outcome Unit × World σ :=
  match aniripRename sys (tempDir ++ "\\episode.mkv") (tempDir ++ "\\unmerged.episode.mkv") 10
      (osRemove sys (tempDir ++ "\\unmerged.episode.mkv") w) with
  | (some err, w1) => (.error err, w1)
  | (none, w1) =>
  match filepathAbs sys (engineDir ++ "\\ffmpeg.exe") w1 with
  | (.error err, w2) =>
      (.error (.anirip ("Unable to find ffmpeg.exe in \\" ++ engineDir ++ "\\ directory") err), w2)
  | (.ok path, w2) =>
  match cmdOutput sys path
      (if subtitleLang = "" then
        ["-i", "unmerged.episode.mkv",
         "-c:v", "copy",
         "-c:a", "copy",
         "-metadata:s:a:0", "language=" ++ audioLang,
         "-y", "episode.mkv"]
       else
        ["-i", "unmerged.episode.mkv",
         "-f", "ass",
         "-i", "subtitles.episode.ass",
         "-c:v", "copy",
         "-c:a", "copy",
         "-metadata:s:a:0", "language=" ++ audioLang,
         "-metadata:s:s:0", "language=" ++ subtitleLang,
         "-disposition:s:0", "default",
         "-y", "episode.mkv"]) tempDir w2 with
  | (.error err, w3) =>
      (.error (.anirip "There was an error while merging subtitles" err), w3)
  | (.ok _, w3) =>
      (.ok (),
       osRemove sys (tempDir ++ "\\unmerged.episode.mkv")
         (osRemove sys (tempDir ++ "\\subtitles.episode.ass") w3))


/-! ## A concrete operating system, for the examples -/

/-- A file system: the content of every path that exists. -/
abbrev Files := String → Option String

/-- Modelled from the spec: `anirip.Rename` (the retrying rename, a package
outside `common.go`) and the file operations, on a file system that nothing
else touches.  Renaming a file that does not exist fails at every attempt, so
the attempts are exhausted and the rename reports its error; a file that
exists is moved.  The external tools are the parameter `tool`. -/
def fileSys (tool : String → List String → String → Files → Except GoError String × Files) :
    Sys Files where
  remove := fun p fs q => if q = p then none else fs q
  rename := fun src dst _ fs =>
    match fs src with
    | none => (some (.anirip "RenameError" (.os ("rename " ++ src ++ ": no such file"))), fs)
    | some c => (none, fun q => if q = dst then some c else if q = src then none else fs q)
  abs := fun p => .ok ("C:\\anirip\\" ++ p)
  run := tool
  writeFile := fun p data _ fs => (none, fun q => if q = p then some data else fs q)

/-- A test double for the external tools: the duration probe answers
`untrimmedDur` for `untrimmed.episode.mkv` and `videoDur` for any other file,
the frame-rate probe answers `rate`, and every other command succeeds without
output after writing its last argument, the output file, into its working
directory; the content written is the command line. -/
def scriptedTool (untrimmedDur videoDur rate : String) :
    String → List String → String → Files → Except GoError String × Files :=
  fun _ args dir fs =>
    if "format=duration" ∈ args then
      (if "untrimmed.episode.mkv" ∈ args then (.ok untrimmedDur, fs) else (.ok videoDur, fs))
    else if "stream=avg_frame_rate" ∈ args then (.ok rate, fs)
    else
      (.ok "",
       fun q =>
         if q = dir ++ "\\" ++ args.getLast! then some (String.intercalate " " args) else fs q)

/-- The file system that holds only the downloaded `temp\episode.mkv`. -/
def freshFiles : Files :=
  fun q => if q = "temp\\episode.mkv" then some "downloaded episode" else none

/-- The file system a run interrupted after the rough cut leaves behind: the
staged `untrimmed.episode.mkv` and a partial `video.episode.mkv`, no `episode.mkv`. -/
def interruptedFiles : Files :=
  fun q =>
    if q = "temp\\untrimmed.episode.mkv" then some "downloaded episode"
    else if q = "temp\\video.episode.mkv" then some "partial clip"
    else none

/-! ## Definitions that follow the specification's words -/

/-- The lines of a text whose lines are separated by a carriage return and a line feed. -/
def crlfLines : List Char → List (List Char)
  | [] => [[]]
  | [c] => [[c]]
  | c :: d :: rest =>
      if c = '\r' ∧ d = '\n' then [] :: crlfLines rest
      else
        match crlfLines (d :: rest) with
        | [] => [[c]]
        | l :: ls => (c :: l) :: ls

/-- The number of seconds `n / 1000`, for `n` milliseconds, as a decimal string
with exactly three fractional digits. -/
def millisToSeconds (n : Int) : String :=
  (if n < 0 then "-" else "") ++ Nat.repr (n.natAbs / 1000) ++ "."
    ++ padZeros 3 (Nat.repr (n.natAbs % 1000))

/-! ## The observable runs of the functions

What each function can log, and with which outcome: one constructor for every
place where the function returns.  These relations are used to reason about the
event log; `getVideoLength_trace`, `getVideoFrameRate_trace` and
`trimMKV_trace` show that the functions above produce exactly these runs. -/

/-- Whether the recorded call reported an error. -/
def Event.failed : Event → Bool
  | .remove _ => false
  | .rename _ _ _ err => err.isSome
  | .abs _ res => match res with
      | .ok _ => false
      | .error _ => true
  | .run _ _ _ res => match res with
      | .ok _ => false
      | .error _ => true
  | .writeFile _ _ _ err => err.isSome

/-- Whether the event is the start of an external program. -/
def Event.isRun : Event → Bool
  | .run _ _ _ _ => true
  | _ => false

/-- Whether the event is the removal of a file. -/
def Event.isRemove : Event → Bool
  | .remove _ => true
  | _ => false

/-- The duration query `getVideoLength` sends to ffprobe. -/
def durationProbe (ffprobe fileName tempDir : String) (res : Except GoError String) : Event :=
  Event.run ffprobe
    ["-v", "error", "-show_entries", "format=duration",
     "-of", "default=noprint_wrappers=1:nokey=1", fileName] tempDir res

/-- The frame-rate query `getVideoFrameRate` sends to ffprobe. -/
def frameRateProbe (ffprobe fileName tempDir : String) (res : Except GoError String) : Event :=
  Event.run ffprobe
    ["-v", "error", "-select_streams", "v:0", "-show_entries", "stream=avg_frame_rate",
     "-of", "default=noprint_wrappers=1:nokey=1", fileName] tempDir res

/-- The runs of `getVideoLength`. -/
inductive LengthTrace (abs : String → Except GoError String) (fileName engineDir tempDir : String) :
    Outcome Int → List Event → Prop where
  | absFailed (err : GoError) (h : abs (engineDir ++ "\\ffprobe.exe") = .error err) :
      LengthTrace abs fileName engineDir tempDir
        (.error (.anirip ("Unable to find ffprobe.exe in \\" ++ engineDir ++ "\\ directory") err))
        [Event.abs (engineDir ++ "\\ffprobe.exe") (.error err)]
  | runFailed (ffprobe : String) (err : GoError)
      (h : abs (engineDir ++ "\\ffprobe.exe") = .ok ffprobe) :
      LengthTrace abs fileName engineDir tempDir
        (.error (.anirip ("There was an error measuring " ++ fileName) err))
        [Event.abs (engineDir ++ "\\ffprobe.exe") (.ok ffprobe),
         durationProbe ffprobe fileName tempDir (.error err)]
  | parseFailed (ffprobe output : String) (err : NumError)
      (h : abs (engineDir ++ "\\ffprobe.exe") = .ok ffprobe)
      (hparse : strconvParseFloat (stringsReplace output) = .error err) :
      LengthTrace abs fileName engineDir tempDir
        (.error (.anirip ("There was an error parsing the length of " ++ fileName) (.num err)))
        [Event.abs (engineDir ++ "\\ffprobe.exe") (.ok ffprobe),
         durationProbe ffprobe fileName tempDir (.ok output)]
  | done (ffprobe output : String) (length : Float64)
      (h : abs (engineDir ++ "\\ffprobe.exe") = .ok ffprobe)
      (hparse : strconvParseFloat (stringsReplace output) = .ok length) :
      LengthTrace abs fileName engineDir tempDir
        (.ok (Float64.toInt (Float64.mul length (Float64.ofInt 1000))))
        [Event.abs (engineDir ++ "\\ffprobe.exe") (.ok ffprobe),
         durationProbe ffprobe fileName tempDir (.ok output)]

/-- The runs of `getVideoFrameRate`. -/
inductive FrameRateTrace (abs : String → Except GoError String)
    (fileName engineDir tempDir : String) : Outcome Float64 → List Event → Prop where
  | absFailed (err : GoError) (h : abs (engineDir ++ "\\ffprobe.exe") = .error err) :
      FrameRateTrace abs fileName engineDir tempDir
        (.error (.anirip ("Unable to find ffprobe.exe in \\" ++ engineDir ++ "\\ directory") err))
        [Event.abs (engineDir ++ "\\ffprobe.exe") (.error err)]
  | runFailed (ffprobe : String) (err : GoError)
      (h : abs (engineDir ++ "\\ffprobe.exe") = .ok ffprobe) :
      FrameRateTrace abs fileName engineDir tempDir
        (.error (.anirip ("There was an error measuring " ++ fileName) err))
        [Event.abs (engineDir ++ "\\ffprobe.exe") (.ok ffprobe),
         frameRateProbe ffprobe fileName tempDir (.error err)]
  | numeratorFailed (ffprobe output num : String) (err : NumError)
      (h : abs (engineDir ++ "\\ffprobe.exe") = .ok ffprobe)
      (h0 : (stringsSplit (stringsReplace output))[0]? = some num)
      (hnum : strconvParseFloat num = .error err) :
      FrameRateTrace abs fileName engineDir tempDir
        (.error (.anirip
          ("There was an error parsing the numerator of our framerate for " ++ fileName)
          (.num err)))
        [Event.abs (engineDir ++ "\\ffprobe.exe") (.ok ffprobe),
         frameRateProbe ffprobe fileName tempDir (.ok output)]
  | indexPanic (ffprobe output num : String) (numerator : Float64)
      (h : abs (engineDir ++ "\\ffprobe.exe") = .ok ffprobe)
      (h0 : (stringsSplit (stringsReplace output))[0]? = some num)
      (hnum : strconvParseFloat num = .ok numerator)
      (h1 : (stringsSplit (stringsReplace output))[1]? = none) :
      FrameRateTrace abs fileName engineDir tempDir
        (.panic "index out of range [1]")
        [Event.abs (engineDir ++ "\\ffprobe.exe") (.ok ffprobe),
         frameRateProbe ffprobe fileName tempDir (.ok output)]
  | denominatorFailed (ffprobe output num den : String) (numerator : Float64) (err : NumError)
      (h : abs (engineDir ++ "\\ffprobe.exe") = .ok ffprobe)
      (h0 : (stringsSplit (stringsReplace output))[0]? = some num)
      (hnum : strconvParseFloat num = .ok numerator)
      (h1 : (stringsSplit (stringsReplace output))[1]? = some den)
      (hden : strconvParseFloat den = .error err) :
      FrameRateTrace abs fileName engineDir tempDir
        (.error (.anirip
          ("There was an error parsing the denominator of our framerate for " ++ fileName)
          (.num err)))
        [Event.abs (engineDir ++ "\\ffprobe.exe") (.ok ffprobe),
         frameRateProbe ffprobe fileName tempDir (.ok output)]
  | done (ffprobe output num den : String) (numerator denominator : Float64)
      (h : abs (engineDir ++ "\\ffprobe.exe") = .ok ffprobe)
      (h0 : (stringsSplit (stringsReplace output))[0]? = some num)
      (hnum : strconvParseFloat num = .ok numerator)
      (h1 : (stringsSplit (stringsReplace output))[1]? = some den)
      (hden : strconvParseFloat den = .ok denominator) :
      FrameRateTrace abs fileName engineDir tempDir
        (.ok (Float64.div numerator denominator))
        [Event.abs (engineDir ++ "\\ffprobe.exe") (.ok ffprobe),
         frameRateProbe ffprobe fileName tempDir (.ok output)]

/-- The four removals of intermediate files `trimMKV` starts and ends with. -/
def staleRemovals (tempDir : String) : List Event :=
  [Event.remove (tempDir ++ "\\" ++ "untrimmed.episode.mkv"),
   Event.remove (tempDir ++ "\\" ++ "prefix.episode.mkv"),
   Event.remove (tempDir ++ "\\" ++ "video.episode.mkv"),
   Event.remove (tempDir ++ "\\" ++ "list.episode.txt")]

/-- The staging rename of `trimMKV`. -/
def stagingRename (tempDir : String) (err : Option GoError) : Event :=
  Event.rename (tempDir ++ "\\episode.mkv") (tempDir ++ "\\untrimmed.episode.mkv") 10 err

/-- The rough cut of `trimMKV`. -/
def roughCut (ffmpeg : String) (estKeyFrame : Int) (tempDir : String)
    (res : Except GoError String) : Event :=
  Event.run ffmpeg
    ["-ss", strconvFormatFloat (Float64.div (Float64.ofInt estKeyFrame) (Float64.ofInt 1000)) 3,
     "-i", "untrimmed.episode.mkv",
     "-c", "copy",
     "-avoid_negative_ts", "1", "-y",
     "video.episode.mkv"] tempDir res

/-- The fine cut of `trimMKV`, for the two probed lengths and the probed frame rate. -/
def fineCut (ffmpeg : String) (adLength untrimmedLength videoLength : Int) (frameRate : Float64)
    (tempDir : String) (res : Except GoError String) : Event :=
  Event.run ffmpeg
    ["-ss", strconvFormatFloat (Float64.div (Float64.ofInt adLength) (Float64.ofInt 1000)) 3,
     "-i", "untrimmed.episode.mkv",
     "-t", strconvFormatFloat
        (Float64.div
          (Float64.ofInt (wrapInt (wrapInt (untrimmedLength - videoLength) - adLength)))
          (Float64.ofInt 1000)) 3,
     "-crf", "5",
     "-vsync", "1",
     "-r", strconvFormatFloat frameRate 8,
     "-c:a", "aac", "-y",
     "prefix.episode.mkv"] tempDir res

/-- The write of the concat manifest. -/
def manifestWrite (tempDir : String) (err : Option GoError) : Event :=
  Event.writeFile (tempDir ++ "\\" ++ "list.episode.txt")
    "file 'prefix.episode.mkv'\r\nfile 'video.episode.mkv'" 420 err

/-- The concatenation of the two clips. -/
def concatRun (ffmpeg tempDir : String) (res : Except GoError String) : Event :=
  Event.run ffmpeg
    ["-f", "concat",
     "-i", "list.episode.txt",
     "-c", "copy", "-y",
     "episode.mkv"] tempDir res

/-- The runs of `trimMKV`: the outcome and the events of the run, for every
place where the function returns. -/
inductive TrimTrace (abs : String → Except GoError String) (adLength estKeyFrame : Int)
    (engineDir tempDir : String) : Outcome Unit → List Event → Prop where
  | renameFailed (err : GoError) :
      TrimTrace abs adLength estKeyFrame engineDir tempDir (.error err)
        (staleRemovals tempDir ++ [stagingRename tempDir (some err)])
  | firstProbeFailed (err : GoError) (evs1 : List Event)
      (h1 : LengthTrace abs "untrimmed.episode.mkv" engineDir tempDir (.error err) evs1) :
      TrimTrace abs adLength estKeyFrame engineDir tempDir (.error err)
        (staleRemovals tempDir ++ [stagingRename tempDir none] ++ evs1)
  | ffmpegMissing (untrimmedLength : Int) (evs1 : List Event) (err : GoError)
      (h1 : LengthTrace abs "untrimmed.episode.mkv" engineDir tempDir (.ok untrimmedLength) evs1)
      (habs : abs (engineDir ++ "\\ffmpeg.exe") = .error err) :
      TrimTrace abs adLength estKeyFrame engineDir tempDir
        (.error (.anirip ("Unable to find ffmpeg.exe in \\" ++ engineDir ++ "\\ directory") err))
        (staleRemovals tempDir ++ [stagingRename tempDir none] ++ evs1
          ++ [Event.abs (engineDir ++ "\\ffmpeg.exe") (.error err)])
  | roughCutFailed (untrimmedLength : Int) (evs1 : List Event) (ffmpeg : String) (err : GoError)
      (h1 : LengthTrace abs "untrimmed.episode.mkv" engineDir tempDir (.ok untrimmedLength) evs1)
      (habs : abs (engineDir ++ "\\ffmpeg.exe") = .ok ffmpeg) :
      TrimTrace abs adLength estKeyFrame engineDir tempDir
        (.error (.anirip "There was an error while creating the video clip" err))
        (staleRemovals tempDir ++ [stagingRename tempDir none] ++ evs1
          ++ [Event.abs (engineDir ++ "\\ffmpeg.exe") (.ok ffmpeg),
              roughCut ffmpeg estKeyFrame tempDir (.error err)])
  | secondProbeFailed (untrimmedLength : Int) (evs1 : List Event) (ffmpeg rough : String)
      (err : GoError) (evs2 : List Event)
      (h1 : LengthTrace abs "untrimmed.episode.mkv" engineDir tempDir (.ok untrimmedLength) evs1)
      (habs : abs (engineDir ++ "\\ffmpeg.exe") = .ok ffmpeg)
      (h2 : LengthTrace abs "video.episode.mkv" engineDir tempDir (.error err) evs2) :
      TrimTrace abs adLength estKeyFrame engineDir tempDir (.error err)
        (staleRemovals tempDir ++ [stagingRename tempDir none] ++ evs1
          ++ [Event.abs (engineDir ++ "\\ffmpeg.exe") (.ok ffmpeg),
              roughCut ffmpeg estKeyFrame tempDir (.ok rough)] ++ evs2)
  | frameRateFailed (untrimmedLength : Int) (evs1 : List Event) (ffmpeg rough : String)
      (videoLength : Int) (evs2 : List Event) (err : GoError) (evs3 : List Event)
      (h1 : LengthTrace abs "untrimmed.episode.mkv" engineDir tempDir (.ok untrimmedLength) evs1)
      (habs : abs (engineDir ++ "\\ffmpeg.exe") = .ok ffmpeg)
      (h2 : LengthTrace abs "video.episode.mkv" engineDir tempDir (.ok videoLength) evs2)
      (h3 : FrameRateTrace abs "video.episode.mkv" engineDir tempDir (.error err) evs3) :
      TrimTrace abs adLength estKeyFrame engineDir tempDir (.error err)
        (staleRemovals tempDir ++ [stagingRename tempDir none] ++ evs1
          ++ [Event.abs (engineDir ++ "\\ffmpeg.exe") (.ok ffmpeg),
              roughCut ffmpeg estKeyFrame tempDir (.ok rough)] ++ evs2 ++ evs3)
  | frameRatePanic (untrimmedLength : Int) (evs1 : List Event) (ffmpeg rough : String)
      (videoLength : Int) (evs2 : List Event) (msg : String) (evs3 : List Event)
      (h1 : LengthTrace abs "untrimmed.episode.mkv" engineDir tempDir (.ok untrimmedLength) evs1)
      (habs : abs (engineDir ++ "\\ffmpeg.exe") = .ok ffmpeg)
      (h2 : LengthTrace abs "video.episode.mkv" engineDir tempDir (.ok videoLength) evs2)
      (h3 : FrameRateTrace abs "video.episode.mkv" engineDir tempDir (.panic msg) evs3) :
      TrimTrace abs adLength estKeyFrame engineDir tempDir (.panic msg)
        (staleRemovals tempDir ++ [stagingRename tempDir none] ++ evs1
          ++ [Event.abs (engineDir ++ "\\ffmpeg.exe") (.ok ffmpeg),
              roughCut ffmpeg estKeyFrame tempDir (.ok rough)] ++ evs2 ++ evs3)
  | fineCutFailed (untrimmedLength : Int) (evs1 : List Event) (ffmpeg rough : String)
      (videoLength : Int) (evs2 : List Event) (frameRate : Float64) (evs3 : List Event)
      (err : GoError)
      (h1 : LengthTrace abs "untrimmed.episode.mkv" engineDir tempDir (.ok untrimmedLength) evs1)
      (habs : abs (engineDir ++ "\\ffmpeg.exe") = .ok ffmpeg)
      (h2 : LengthTrace abs "video.episode.mkv" engineDir tempDir (.ok videoLength) evs2)
      (h3 : FrameRateTrace abs "video.episode.mkv" engineDir tempDir (.ok frameRate) evs3) :
      TrimTrace abs adLength estKeyFrame engineDir tempDir
        (.error (.anirip "There was an error while creating the prefix clip" err))
        (staleRemovals tempDir ++ [stagingRename tempDir none] ++ evs1
          ++ [Event.abs (engineDir ++ "\\ffmpeg.exe") (.ok ffmpeg),
              roughCut ffmpeg estKeyFrame tempDir (.ok rough)] ++ evs2 ++ evs3
          ++ [fineCut ffmpeg adLength untrimmedLength videoLength frameRate tempDir (.error err)])
  | writeFailed (untrimmedLength : Int) (evs1 : List Event) (ffmpeg rough : String)
      (videoLength : Int) (evs2 : List Event) (frameRate : Float64) (evs3 : List Event)
      (fine : String) (err : GoError)
      (h1 : LengthTrace abs "untrimmed.episode.mkv" engineDir tempDir (.ok untrimmedLength) evs1)
      (habs : abs (engineDir ++ "\\ffmpeg.exe") = .ok ffmpeg)
      (h2 : LengthTrace abs "video.episode.mkv" engineDir tempDir (.ok videoLength) evs2)
      (h3 : FrameRateTrace abs "video.episode.mkv" engineDir tempDir (.ok frameRate) evs3) :
      TrimTrace abs adLength estKeyFrame engineDir tempDir
        (.error (.anirip "There was an error while creating list.episode.txt" err))
        (staleRemovals tempDir ++ [stagingRename tempDir none] ++ evs1
          ++ [Event.abs (engineDir ++ "\\ffmpeg.exe") (.ok ffmpeg),
              roughCut ffmpeg estKeyFrame tempDir (.ok rough)] ++ evs2 ++ evs3
          ++ [fineCut ffmpeg adLength untrimmedLength videoLength frameRate tempDir (.ok fine),
              manifestWrite tempDir (some err)])
  | concatFailed (untrimmedLength : Int) (evs1 : List Event) (ffmpeg rough : String)
      (videoLength : Int) (evs2 : List Event) (frameRate : Float64) (evs3 : List Event)
      (fine : String) (err : GoError)
      (h1 : LengthTrace abs "untrimmed.episode.mkv" engineDir tempDir (.ok untrimmedLength) evs1)
      (habs : abs (engineDir ++ "\\ffmpeg.exe") = .ok ffmpeg)
      (h2 : LengthTrace abs "video.episode.mkv" engineDir tempDir (.ok videoLength) evs2)
      (h3 : FrameRateTrace abs "video.episode.mkv" engineDir tempDir (.ok frameRate) evs3) :
      TrimTrace abs adLength estKeyFrame engineDir tempDir
        (.error (.anirip "There was an error while merging video and prefix" err))
        (staleRemovals tempDir ++ [stagingRename tempDir none] ++ evs1
          ++ [Event.abs (engineDir ++ "\\ffmpeg.exe") (.ok ffmpeg),
              roughCut ffmpeg estKeyFrame tempDir (.ok rough)] ++ evs2 ++ evs3
          ++ [fineCut ffmpeg adLength untrimmedLength videoLength frameRate tempDir (.ok fine),
              manifestWrite tempDir none,
              concatRun ffmpeg tempDir (.error err)])
  | done (untrimmedLength : Int) (evs1 : List Event) (ffmpeg rough : String)
      (videoLength : Int) (evs2 : List Event) (frameRate : Float64) (evs3 : List Event)
      (fine merged : String)
      (h1 : LengthTrace abs "untrimmed.episode.mkv" engineDir tempDir (.ok untrimmedLength) evs1)
      (habs : abs (engineDir ++ "\\ffmpeg.exe") = .ok ffmpeg)
      (h2 : LengthTrace abs "video.episode.mkv" engineDir tempDir (.ok videoLength) evs2)
      (h3 : FrameRateTrace abs "video.episode.mkv" engineDir tempDir (.ok frameRate) evs3) :
      TrimTrace abs adLength estKeyFrame engineDir tempDir (.ok ())
        (staleRemovals tempDir ++ [stagingRename tempDir none] ++ evs1
          ++ [Event.abs (engineDir ++ "\\ffmpeg.exe") (.ok ffmpeg),
              roughCut ffmpeg estKeyFrame tempDir (.ok rough)] ++ evs2 ++ evs3
          ++ [fineCut ffmpeg adLength untrimmedLength videoLength frameRate tempDir (.ok fine),
              manifestWrite tempDir none,
              concatRun ffmpeg tempDir (.ok merged)]
          ++ staleRemovals tempDir)

/-- Every event of the list that satisfies `P` is its last event. -/
def OnlyLast (P : Event → Prop) : List Event → Prop
  | [] => True
  | ev :: rest => (P ev → rest = []) ∧ OnlyLast P rest

/-- The file system `fs` without the four intermediate files of `trimMKV`. -/
def withoutStale (tempDir : String) (fs : Files) : Files :=
  fun q =>
    if q = tempDir ++ "\\" ++ "list.episode.txt" then none
    else if q = tempDir ++ "\\" ++ "video.episode.mkv" then none
    else if q = tempDir ++ "\\" ++ "prefix.episode.mkv" then none
    else if q = tempDir ++ "\\" ++ "untrimmed.episode.mkv" then none
    else fs q

/-! ## The number a decimal text stands for -/

/-- The natural number written by a string of decimal digits. -/
def digitsValue (ds : List Char) : Nat :=
  ds.foldl (fun acc c => acc * 10 + digitVal c) 0

/-- The rational number written `ip.fp`, for two strings of decimal digits. -/
def decimalSeconds (ip fp : List Char) : ℚ :=
  (digitsValue (ip ++ fp) : ℚ) / 10 ^ fp.length
/-! ## Lemmas on the string functions -/

theorem replaceCRLF_of_no_cr (l : List Char) (h : '\r' ∉ l) : replaceCRLF l = l := by
  induction l using replaceCRLF.induct with
  | case1 => rfl
  | case2 c => rfl
  | case3 c d rest hcd ih =>
      exfalso; exact h (by simp [hcd.1])
  | case4 c d rest hcd ih =>
      have : '\r' ∉ d :: rest := fun hm => h (List.mem_cons_of_mem _ hm)
      simp [replaceCRLF, hcd, ih this]

theorem replaceCRLF_append_crlf (l : List Char) (h : '\r' ∉ l) :
    replaceCRLF (l ++ ['\r', '\n']) = l := by
  induction l using replaceCRLF.induct with
  | case1 => simp [replaceCRLF]
  | case2 c =>
      have hc : c ≠ '\r' := fun hc => h (by simp [hc])
      simp [replaceCRLF, hc]
  | case3 c d rest hcd ih =>
      exfalso; exact h (by simp [hcd.1])
  | case4 c d rest hcd ih =>
      have : '\r' ∉ d :: rest := fun hm => h (List.mem_cons_of_mem _ hm)
      have ih' := ih this
      simp only [List.cons_append] at ih' ⊢
      simp [replaceCRLF, hcd, ih']

theorem splitChars_of_not_mem (sep : Char) (l : List Char) (h : sep ∉ l) :
    splitChars sep l = [l] := by
  induction l with
  | nil => rfl
  | cons c cs ih =>
      have hc : c ≠ sep := fun hc => h (by simp [hc])
      have hcs : sep ∉ cs := fun hm => h (List.mem_cons_of_mem _ hm)
      simp [splitChars, hc, ih hcs]

theorem splitChars_append (sep : Char) (a b : List Char) (h : sep ∉ a) :
    splitChars sep (a ++ sep :: b) = a :: splitChars sep b := by
  induction a with
  | nil => simp [splitChars]
  | cons c cs ih =>
      have hc : c ≠ sep := fun hc => h (by simp [hc])
      have hcs : sep ∉ cs := fun hm => h (List.mem_cons_of_mem _ hm)
      simp [splitChars, hc, ih hcs]

theorem splitChars_ne_nil (sep : Char) (l : List Char) : splitChars sep l ≠ [] := by
  induction l with
  | nil => simp [splitChars]
  | cons c cs ih =>
      by_cases hc : c = sep
      · simp [splitChars, hc]
      · simp only [splitChars, hc, if_false]
        split <;> simp

/-- The pieces of a cleaned probe output `N/D`, with or without the final line break. -/
theorem split_fraction (N D output : String)
    (hout : output = N ++ "/" ++ D ∨ output = N ++ "/" ++ D ++ "\r\n")
    (hN1 : '/' ∉ N.data) (hN2 : '\r' ∉ N.data) (hD1 : '/' ∉ D.data) (hD2 : '\r' ∉ D.data) :
    stringsSplit (stringsReplace output) = [N, D] := by
  have hcr : '\r' ∉ N.data ++ '/' :: D.data := by
    simp only [List.mem_append, List.mem_cons, not_or]
    exact ⟨hN2, by decide, hD2⟩
  have hclean : replaceCRLF output.data = N.data ++ '/' :: D.data := by
    rcases hout with h | h
    · subst h
      have : (N ++ "/" ++ D).data = N.data ++ '/' :: D.data := by
        simp [String.data_append]
      rw [this]; exact replaceCRLF_of_no_cr _ hcr
    · subst h
      have : (N ++ "/" ++ D ++ "\r\n").data = (N.data ++ '/' :: D.data) ++ ['\r', '\n'] := by
        simp [String.data_append]
      rw [this]; exact replaceCRLF_append_crlf _ hcr
  simp only [stringsSplit, stringsReplace, hclean]
  rw [splitChars_append _ _ _ hN1, splitChars_of_not_mem _ _ hD1]
  rfl


/-! ## The runs of the two probes -/

theorem getVideoLength_trace {σ : Type} (sys : Sys σ) (fileName engineDir tempDir : String)
    (w : World σ) :
    ∃ evs, (getVideoLength sys fileName engineDir tempDir w).2.log = w.log ++ evs
      ∧ LengthTrace sys.abs fileName engineDir tempDir
          (getVideoLength sys fileName engineDir tempDir w).1 evs := by
  unfold getVideoLength filepathAbs cmdOutput
  cases habs : sys.abs (engineDir ++ "\\ffprobe.exe") with
  | error err => exact ⟨_, rfl, LengthTrace.absFailed err habs⟩
  | ok ffprobe =>
      dsimp only
      cases hrun : (sys.run ffprobe
          ["-v", "error", "-show_entries", "format=duration",
           "-of", "default=noprint_wrappers=1:nokey=1", fileName] tempDir w.os).1 with
      | error err =>
          dsimp only
          refine ⟨_, ?_, LengthTrace.runFailed ffprobe err habs⟩
          simp [durationProbe]
      | ok output =>
          dsimp only
          cases hparse : strconvParseFloat (stringsReplace output) with
          | error err =>
              dsimp only
              refine ⟨_, ?_, LengthTrace.parseFailed ffprobe output err habs hparse⟩
              simp [durationProbe]
          | ok length =>
              dsimp only
              refine ⟨_, ?_, LengthTrace.done ffprobe output length habs hparse⟩
              simp [durationProbe]

theorem getVideoFrameRate_trace {σ : Type} (sys : Sys σ) (fileName engineDir tempDir : String)
    (w : World σ) :
    ∃ evs, (getVideoFrameRate sys fileName engineDir tempDir w).2.log = w.log ++ evs
      ∧ FrameRateTrace sys.abs fileName engineDir tempDir
          (getVideoFrameRate sys fileName engineDir tempDir w).1 evs := by
  unfold getVideoFrameRate filepathAbs cmdOutput
  cases habs : sys.abs (engineDir ++ "\\ffprobe.exe") with
  | error err => exact ⟨_, rfl, FrameRateTrace.absFailed err habs⟩
  | ok ffprobe =>
      dsimp only
      cases hrun : (sys.run ffprobe
          ["-v", "error", "-select_streams", "v:0", "-show_entries", "stream=avg_frame_rate",
           "-of", "default=noprint_wrappers=1:nokey=1", fileName] tempDir w.os).1 with
      | error err =>
          dsimp only
          refine ⟨_, ?_, FrameRateTrace.runFailed ffprobe err habs⟩
          simp [frameRateProbe]
      | ok output =>
          dsimp only
          cases h0 : (stringsSplit (stringsReplace output))[0]? with
          | none =>
              exfalso
              have hne := splitChars_ne_nil '/' (stringsReplace output).data
              simp [stringsSplit] at h0
              exact hne h0
          | some num =>
              dsimp only
              cases hnum : strconvParseFloat num with
              | error err =>
                  dsimp only
                  refine ⟨_, ?_, FrameRateTrace.numeratorFailed ffprobe output num err habs h0 hnum⟩
                  simp [frameRateProbe]
              | ok numerator =>
                  dsimp only
                  cases h1 : (stringsSplit (stringsReplace output))[1]? with
                  | none =>
                      dsimp only
                      refine ⟨_, ?_, FrameRateTrace.indexPanic ffprobe output num numerator
                        habs h0 hnum h1⟩
                      simp [frameRateProbe]
                  | some den =>
                      dsimp only
                      cases hden : strconvParseFloat den with
                      | error err =>
                          dsimp only
                          refine ⟨_, ?_, FrameRateTrace.denominatorFailed ffprobe output num den
                            numerator err habs h0 hnum h1 hden⟩
                          simp [frameRateProbe]
                      | ok denominator =>
                          dsimp only
                          refine ⟨_, ?_, FrameRateTrace.done ffprobe output num den
                            numerator denominator habs h0 hnum h1 hden⟩
                          simp [frameRateProbe]
theorem osRemove_log {σ : Type} (sys : Sys σ) (p : String) (w : World σ) :
    (osRemove sys p w).log = w.log ++ [Event.remove p] := rfl

theorem staleRemovals_log {σ : Type} (sys : Sys σ) (tempDir : String) (w : World σ) :
    (osRemove sys (tempDir ++ "\\" ++ "list.episode.txt")
        (osRemove sys (tempDir ++ "\\" ++ "video.episode.mkv")
          (osRemove sys (tempDir ++ "\\" ++ "prefix.episode.mkv")
            (osRemove sys (tempDir ++ "\\" ++ "untrimmed.episode.mkv") w)))).log
      = w.log ++ staleRemovals tempDir := by
  simp [osRemove, staleRemovals]

theorem aniripRename_log {σ : Type} (sys : Sys σ) (a b : String) (n : Nat) (w : World σ) :
    (aniripRename sys a b n w).2.log
      = w.log ++ [Event.rename a b n (aniripRename sys a b n w).1] := rfl

theorem filepathAbs_fst {σ : Type} (sys : Sys σ) (p : String) (w : World σ) :
    (filepathAbs sys p w).1 = sys.abs p := rfl

theorem filepathAbs_log {σ : Type} (sys : Sys σ) (p : String) (w : World σ) :
    (filepathAbs sys p w).2.log = w.log ++ [Event.abs p (sys.abs p)] := rfl

theorem cmdOutput_log {σ : Type} (sys : Sys σ) (prog : String) (args : List String)
    (dir : String) (w : World σ) :
    (cmdOutput sys prog args dir w).2.log
      = w.log ++ [Event.run prog args dir (cmdOutput sys prog args dir w).1] := rfl

theorem ioutilWriteFile_log {σ : Type} (sys : Sys σ) (p d : String) (n : Nat) (w : World σ) :
    (ioutilWriteFile sys p d n w).2.log
      = w.log ++ [Event.writeFile p d n (ioutilWriteFile sys p d n w).1] := rfl

theorem trimMKV_trace {σ : Type} (sys : Sys σ) (adLength estKeyFrame : Int)
    (engineDir tempDir : String) (w : World σ) :
    ∃ evs, (trimMKV sys adLength estKeyFrame engineDir tempDir w).2.log = w.log ++ evs
      ∧ TrimTrace sys.abs adLength estKeyFrame engineDir tempDir
          (trimMKV sys adLength estKeyFrame engineDir tempDir w).1 evs := by
  unfold trimMKV
  have hw0 := staleRemovals_log sys tempDir w
  generalize (osRemove sys (tempDir ++ "\\" ++ "list.episode.txt")
        (osRemove sys (tempDir ++ "\\" ++ "video.episode.mkv")
          (osRemove sys (tempDir ++ "\\" ++ "prefix.episode.mkv")
            (osRemove sys (tempDir ++ "\\" ++ "untrimmed.episode.mkv") w)))) = w0 at hw0 ⊢
  -- staging rename
  have hl1 := aniripRename_log sys (tempDir ++ "\\episode.mkv")
    (tempDir ++ "\\untrimmed.episode.mkv") 10 w0
  generalize aniripRename sys (tempDir ++ "\\episode.mkv")
    (tempDir ++ "\\untrimmed.episode.mkv") 10 w0 = r1 at hl1 ⊢
  obtain ⟨res1, w1⟩ := r1
  dsimp only at hl1 ⊢
  cases res1 with
  | some err =>
      dsimp only
      exact ⟨_, by rw [hl1, hw0, List.append_assoc]; rfl, TrimTrace.renameFailed err⟩
  | none =>
  dsimp only
  -- first probe
  obtain ⟨evs1, hl2, ht1⟩ := getVideoLength_trace sys "untrimmed.episode.mkv" engineDir tempDir w1
  generalize getVideoLength sys "untrimmed.episode.mkv" engineDir tempDir w1 = r2 at hl2 ht1 ⊢
  obtain ⟨res2, w2⟩ := r2
  dsimp only at hl2 ht1 ⊢
  cases res2 with
  | error err =>
      dsimp only
      refine ⟨_, ?_, TrimTrace.firstProbeFailed err evs1 ht1⟩
      rw [hl2, hl1, hw0]; simp [stagingRename]
  | panic msg => cases ht1
  | ok untrimmedLength =>
  dsimp only
  -- ffmpeg path
  have hf3 := filepathAbs_fst sys (engineDir ++ "\\ffmpeg.exe") w2
  have hl3 := filepathAbs_log sys (engineDir ++ "\\ffmpeg.exe") w2
  generalize filepathAbs sys (engineDir ++ "\\ffmpeg.exe") w2 = r3 at hf3 hl3 ⊢
  obtain ⟨res3, w3⟩ := r3
  dsimp only at hf3 hl3 ⊢
  cases res3 with
  | error err =>
      dsimp only
      refine ⟨_, ?_, TrimTrace.ffmpegMissing untrimmedLength evs1 err ht1 hf3.symm⟩
      rw [hl3, hl2, hl1, hw0, ← hf3]; simp [stagingRename]
  | ok ffmpeg =>
  dsimp only
  -- rough cut
  have hl4 := cmdOutput_log sys ffmpeg
      ["-ss", strconvFormatFloat (Float64.div (Float64.ofInt estKeyFrame) (Float64.ofInt 1000)) 3,
       "-i", "untrimmed.episode.mkv",
       "-c", "copy",
       "-avoid_negative_ts", "1", "-y",
       "video.episode.mkv"] tempDir w3
  generalize cmdOutput sys ffmpeg
      ["-ss", strconvFormatFloat (Float64.div (Float64.ofInt estKeyFrame) (Float64.ofInt 1000)) 3,
       "-i", "untrimmed.episode.mkv",
       "-c", "copy",
       "-avoid_negative_ts", "1", "-y",
       "video.episode.mkv"] tempDir w3 = r4 at hl4 ⊢
  obtain ⟨res4, w4⟩ := r4
  dsimp only at hl4 ⊢
  cases res4 with
  | error err =>
      dsimp only
      refine ⟨_, ?_, TrimTrace.roughCutFailed untrimmedLength evs1 ffmpeg err ht1 hf3.symm⟩
      rw [hl4, hl3, hl2, hl1, hw0, ← hf3]; simp [stagingRename, roughCut]
  | ok rough =>
  dsimp only
  -- second probe
  obtain ⟨evs2, hl5, ht2⟩ := getVideoLength_trace sys "video.episode.mkv" engineDir tempDir w4
  generalize getVideoLength sys "video.episode.mkv" engineDir tempDir w4 = r5 at hl5 ht2 ⊢
  obtain ⟨res5, w5⟩ := r5
  dsimp only at hl5 ht2 ⊢
  cases res5 with
  | error err =>
      dsimp only
      refine ⟨_, ?_, TrimTrace.secondProbeFailed untrimmedLength evs1 ffmpeg rough err evs2
        ht1 hf3.symm ht2⟩
      rw [hl5, hl4, hl3, hl2, hl1, hw0, ← hf3]; simp [stagingRename, roughCut]
  | panic msg => cases ht2
  | ok videoLength =>
  dsimp only
  -- frame rate
  obtain ⟨evs3, hl6, ht3⟩ := getVideoFrameRate_trace sys "video.episode.mkv" engineDir tempDir w5
  generalize getVideoFrameRate sys "video.episode.mkv" engineDir tempDir w5 = r6 at hl6 ht3 ⊢
  obtain ⟨res6, w6⟩ := r6
  dsimp only at hl6 ht3 ⊢
  cases res6 with
  | error err =>
      dsimp only
      refine ⟨_, ?_, TrimTrace.frameRateFailed untrimmedLength evs1 ffmpeg rough videoLength evs2
        err evs3 ht1 hf3.symm ht2 ht3⟩
      rw [hl6, hl5, hl4, hl3, hl2, hl1, hw0, ← hf3]; simp [stagingRename, roughCut]
  | panic msg =>
      dsimp only
      refine ⟨_, ?_, TrimTrace.frameRatePanic untrimmedLength evs1 ffmpeg rough videoLength evs2
        msg evs3 ht1 hf3.symm ht2 ht3⟩
      rw [hl6, hl5, hl4, hl3, hl2, hl1, hw0, ← hf3]; simp [stagingRename, roughCut]
  | ok frameRate =>
  dsimp only
  -- fine cut
  have hl7 := cmdOutput_log sys ffmpeg
      ["-ss", strconvFormatFloat (Float64.div (Float64.ofInt adLength) (Float64.ofInt 1000)) 3,
       "-i", "untrimmed.episode.mkv",
       "-t", strconvFormatFloat
          (Float64.div
            (Float64.ofInt (wrapInt (wrapInt (untrimmedLength - videoLength) - adLength)))
            (Float64.ofInt 1000)) 3,
       "-crf", "5",
       "-vsync", "1",
       "-r", strconvFormatFloat frameRate 8,
       "-c:a", "aac", "-y",
       "prefix.episode.mkv"] tempDir w6
  generalize cmdOutput sys ffmpeg
      ["-ss", strconvFormatFloat (Float64.div (Float64.ofInt adLength) (Float64.ofInt 1000)) 3,
       "-i", "untrimmed.episode.mkv",
       "-t", strconvFormatFloat
          (Float64.div
            (Float64.ofInt (wrapInt (wrapInt (untrimmedLength - videoLength) - adLength)))
            (Float64.ofInt 1000)) 3,
       "-crf", "5",
       "-vsync", "1",
       "-r", strconvFormatFloat frameRate 8,
       "-c:a", "aac", "-y",
       "prefix.episode.mkv"] tempDir w6 = r7 at hl7 ⊢
  obtain ⟨res7, w7⟩ := r7
  dsimp only at hl7 ⊢
  cases res7 with
  | error err =>
      dsimp only
      refine ⟨_, ?_, TrimTrace.fineCutFailed untrimmedLength evs1 ffmpeg rough videoLength evs2
        frameRate evs3 err ht1 hf3.symm ht2 ht3⟩
      rw [hl7, hl6, hl5, hl4, hl3, hl2, hl1, hw0, ← hf3]; simp [stagingRename, roughCut, fineCut]
  | ok fine =>
  dsimp only
  -- manifest
  have hl8 := ioutilWriteFile_log sys (tempDir ++ "\\" ++ "list.episode.txt")
      "file 'prefix.episode.mkv'\r\nfile 'video.episode.mkv'" 420 w7
  generalize ioutilWriteFile sys (tempDir ++ "\\" ++ "list.episode.txt")
      "file 'prefix.episode.mkv'\r\nfile 'video.episode.mkv'" 420 w7 = r8 at hl8 ⊢
  obtain ⟨res8, w8⟩ := r8
  dsimp only at hl8 ⊢
  cases res8 with
  | some err =>
      dsimp only
      refine ⟨_, ?_, TrimTrace.writeFailed untrimmedLength evs1 ffmpeg rough videoLength evs2
        frameRate evs3 fine err ht1 hf3.symm ht2 ht3⟩
      rw [hl8, hl7, hl6, hl5, hl4, hl3, hl2, hl1, hw0, ← hf3]
      simp [stagingRename, roughCut, fineCut, manifestWrite]
  | none =>
  dsimp only
  -- concatenation
  have hl9 := cmdOutput_log sys ffmpeg
      ["-f", "concat", "-i", "list.episode.txt", "-c", "copy", "-y", "episode.mkv"] tempDir w8
  generalize cmdOutput sys ffmpeg
      ["-f", "concat", "-i", "list.episode.txt", "-c", "copy", "-y", "episode.mkv"] tempDir w8
      = r9 at hl9 ⊢
  obtain ⟨res9, w9⟩ := r9
  dsimp only at hl9 ⊢
  cases res9 with
  | error err =>
      dsimp only
      refine ⟨_, ?_, TrimTrace.concatFailed untrimmedLength evs1 ffmpeg rough videoLength evs2
        frameRate evs3 fine err ht1 hf3.symm ht2 ht3⟩
      rw [hl9, hl8, hl7, hl6, hl5, hl4, hl3, hl2, hl1, hw0, ← hf3]
      simp [stagingRename, roughCut, fineCut, manifestWrite, concatRun]
  | ok merged =>
      dsimp only
      refine ⟨_, ?_, TrimTrace.done untrimmedLength evs1 ffmpeg rough videoLength evs2
        frameRate evs3 fine merged ht1 hf3.symm ht2 ht3⟩
      rw [staleRemovals_log, hl9, hl8, hl7, hl6, hl5, hl4, hl3, hl2, hl1, hw0, ← hf3]
      simp [stagingRename, roughCut, fineCut, manifestWrite, concatRun]

/-! ## Rounding lemmas -/

theorem bitLenAux_spec (fuel n : Nat) (h : n ≤ fuel) :
    n < 2 ^ bitLenAux fuel n ∧ (n ≠ 0 → 2 ^ (bitLenAux fuel n - 1) ≤ n) := by
  induction fuel generalizing n with
  | zero =>
      have : n = 0 := by omega
      subst this
      simp [bitLenAux]
  | succ fuel ih =>
      by_cases hn : n = 0
      · subst hn; simp [bitLenAux]
      · have hhalf : n / 2 ≤ fuel := by omega
        obtain ⟨hlt, hge⟩ := ih (n / 2) hhalf
        simp only [bitLenAux, hn, if_false, Nat.add_sub_cancel]
        refine ⟨?_, fun _ => ?_⟩
        · rw [pow_succ]; omega
        · by_cases h2 : n / 2 = 0
          · have hb : bitLenAux fuel (n / 2) = 0 := by
              rw [h2]; cases fuel <;> simp [bitLenAux]
            rw [hb]; simp; omega
          · have := hge h2
            have hpos : 1 ≤ bitLenAux fuel (n / 2) := by
              by_contra hc
              have h0 : bitLenAux fuel (n / 2) = 0 := by omega
              rw [h0] at hlt; simp at hlt; exact h2 hlt
            have hp : 2 ^ bitLenAux fuel (n / 2) = 2 * 2 ^ (bitLenAux fuel (n / 2) - 1) := by
              conv_lhs => rw [← Nat.sub_add_cancel hpos]
              rw [pow_succ]; ring
            rw [hp]; omega

theorem lt_two_pow_bitLen (n : Nat) : n < 2 ^ bitLen n :=
  (bitLenAux_spec n n le_rfl).1

theorem two_pow_bitLen_le (n : Nat) (h : n ≠ 0) : 2 ^ (bitLen n - 1) ≤ n :=
  (bitLenAux_spec n n le_rfl).2 h

theorem bitLen_pos (n : Nat) (h : n ≠ 0) : 1 ≤ bitLen n := by
  by_contra hc
  have h0 : bitLen n = 0 := by omega
  have := lt_two_pow_bitLen n
  rw [h0] at this
  omega

theorem bitLen_le_of_lt (n k : Nat) (h : n < 2 ^ k) : bitLen n ≤ k := by
  by_cases hn : n = 0
  · subst hn; simp [bitLen, bitLenAux]
  · by_contra hc
    have h1 : k ≤ bitLen n - 1 := by omega
    have h2 := two_pow_bitLen_le n hn
    have h3 : 2 ^ k ≤ 2 ^ (bitLen n - 1) := Nat.pow_le_pow_right (by decide) h1
    omega

theorem roundHalfEven_near (a b : Nat) (hb : 0 < b) :
    2 * (roundHalfEven a b * b) ≤ 2 * a + b ∧ 2 * a ≤ 2 * (roundHalfEven a b * b) + b := by
  have hdm : a = a / b * b + a % b := by
    have := Nat.div_add_mod a b
    rw [Nat.mul_comm] at this
    exact this.symm
  have hmod := Nat.mod_lt a hb
  unfold roundHalfEven
  generalize a / b = q at hdm ⊢
  generalize a % b = r at hdm hmod ⊢
  subst hdm
  split_ifs <;> constructor <;> (try simp only [Nat.add_mul, Nat.one_mul]) <;> omega

theorem roundHalfEven_eq (a b n : Nat) (h1 : 2 * a < 2 * (n * b) + b)
    (h2 : 2 * (n * b) < 2 * a + b) : roundHalfEven a b = n := by
  have hb : 0 < b := by
    rcases Nat.eq_zero_or_pos b with h | h
    · subst h; simp at h1 h2
    · exact h
  obtain ⟨h3, h4⟩ := roundHalfEven_near a b hb
  by_contra hne
  rcases Nat.lt_or_gt_of_ne hne with hlt | hgt
  · have : (roundHalfEven a b + 1) * b ≤ n * b := Nat.mul_le_mul_right b hlt
    nlinarith
  · have : (n + 1) * b ≤ roundHalfEven a b * b := Nat.mul_le_mul_right b hgt
    nlinarith

theorem roundHalfEven_one (a : Nat) : roundHalfEven a 1 = a := by
  apply roundHalfEven_eq <;> omega

theorem floorLog2_lt (num den k : Nat) (h : num < den * 2 ^ k) :
    floorLog2 num den < (k : Int) := by
  have hbd := lt_two_pow_bitLen den
  unfold floorLog2
  split_ifs with hc
  · by_contra hge
    have hle : bitLen den + k ≤ bitLen num := by omega
    have h1 : ((bitLen num : Int) - (bitLen den : Int)).toNat = bitLen num - bitLen den := by
      omega
    have h2 : ((bitLen den : Int) - (bitLen num : Int)).toNat = 0 := by omega
    rw [h1, h2, pow_zero, Nat.mul_one] at hc
    have h3 : 2 ^ k ≤ 2 ^ (bitLen num - bitLen den) :=
      Nat.pow_le_pow_right (by decide) (by omega)
    have h4 : den * 2 ^ k ≤ den * 2 ^ (bitLen num - bitLen den) := Nat.mul_le_mul_left den h3
    omega
  · have h1 : num < 2 ^ (bitLen den + k) := by
      rw [pow_add]
      calc num < den * 2 ^ k := h
        _ ≤ 2 ^ bitLen den * 2 ^ k := Nat.mul_le_mul_right _ (Nat.le_of_lt hbd)
    have := bitLen_le_of_lt num _ h1
    omega

/-- Millisecond quotients survive the division by 1000 and the rendering to
three decimals: the nearest `float64` to `a / 1000` is printed as `a / 1000`. -/
theorem format_round_millis (neg : Bool) (num den a : Nat) (hden : 0 < den) (ha : 0 < a)
    (hrat : num * 1000 = a * den) (hlt : a < 2 ^ 43 * 1000) :
    strconvFormatFloat (Float64.round neg num den) 3
      = (if neg then "-" else "") ++ Nat.repr (a / 1000)
          ++ ("." ++ padZeros 3 (Nat.repr (a % 1000))) := by
  have hnum : num ≠ 0 := by
    rintro rfl
    have : 0 < a * den := Nat.mul_pos ha hden
    omega
  have hnd : num < den * 2 ^ 43 := by
    have h1 : num * 1000 < den * 2 ^ 43 * 1000 := by
      rw [hrat]
      calc a * den < 2 ^ 43 * 1000 * den := Nat.mul_lt_mul_of_pos_right hlt hden
        _ = den * 2 ^ 43 * 1000 := by ring
    exact Nat.lt_of_mul_lt_mul_right h1
  have hfl := floorLog2_lt num den 43 hnd
  unfold Float64.round
  rw [if_neg hnum]
  generalize hE : max (floorLog2 num den - 52) (-1074) = E
  have hE1 : E ≤ -10 := by rw [← hE]; omega
  have hE2 : -1074 ≤ E := by rw [← hE]; omega
  obtain ⟨k, rfl⟩ : ∃ k : Nat, E = -(k : Int) := ⟨(-E).toNat, by omega⟩
  have hk : 10 ≤ k := by omega
  have hP : 1024 ≤ 2 ^ k := by
    calc 1024 = 2 ^ 10 := by norm_num
      _ ≤ 2 ^ k := Nat.pow_le_pow_right (by decide) hk
  have hs : scaledRound num den (-(k : Int)) = roundHalfEven (num * 2 ^ k) den := by
    unfold scaledRound
    have h1 : (-(-(k : Int))).toNat = k := by omega
    have h2 : (-(k : Int)).toNat = 0 := by omega
    rw [h1, h2, pow_zero, Nat.mul_one]
  rw [hs]
  obtain ⟨hn1, hn2⟩ := roundHalfEven_near (num * 2 ^ k) den hden
  generalize roundHalfEven (num * 2 ^ k) den = m at hn1 hn2 ⊢
  have hn1' : 2 * (m * 1000) ≤ 2 * (a * 2 ^ k) + 1000 := by
    have : den * (2 * (m * 1000)) ≤ den * (2 * (a * 2 ^ k) + 1000) := by
      have e1 : den * (2 * (m * 1000)) = 1000 * (2 * (m * den)) := by ring
      have e2 : den * (2 * (a * 2 ^ k) + 1000) = 1000 * (2 * (num * 2 ^ k) + den) := by
        have : a * den * 2 ^ k = num * 1000 * 2 ^ k := by rw [hrat]
        nlinarith
      rw [e1, e2]
      exact Nat.mul_le_mul_left _ hn1
    exact Nat.le_of_mul_le_mul_left this hden
  have hn2' : 2 * (a * 2 ^ k) ≤ 2 * (m * 1000) + 1000 := by
    have : den * (2 * (a * 2 ^ k)) ≤ den * (2 * (m * 1000) + 1000) := by
      have e1 : den * (2 * (m * 1000) + 1000) = 1000 * (2 * (m * den) + den) := by ring
      have e2 : den * (2 * (a * 2 ^ k)) = 1000 * (2 * (num * 2 ^ k)) := by
        have : a * den * 2 ^ k = num * 1000 * 2 ^ k := by rw [hrat]
        nlinarith
      rw [e1, e2]
      exact Nat.mul_le_mul_left _ hn2
    exact Nat.le_of_mul_le_mul_left this hden
  have h971 : ¬ (971 < -(k : Int) + 1) := by omega
  have h971' : ¬ (971 < -(k : Int)) := by omega
  by_cases hm : m = 2 ^ 53
  · -- the mantissa rounded up to 2^53
    rw [if_pos hm, if_neg h971]
    subst hm
    have h1 : (-(k : Int) + 1).toNat = 0 := by omega
    have h2 : (-(-(k : Int) + 1)).toNat = k - 1 := by omega
    have hk2 : 2 ^ k = 2 * 2 ^ (k - 1) := by
      conv_lhs => rw [← Nat.sub_add_cancel (show 1 ≤ k by omega)]
      rw [pow_succ]; ring
    have hak : a * 2 ^ k = 2 * (a * 2 ^ (k - 1)) := by rw [hk2]; ring
    have hr : roundHalfEven (2 ^ 52 * 10 ^ 3 * 2 ^ (-(k : Int) + 1).toNat)
        (2 ^ (-(-(k : Int) + 1)).toNat) = a := by
      rw [h1, h2, pow_zero, Nat.mul_one]
      rw [hak] at hn1' hn2'
      rw [hk2] at hP
      apply roundHalfEven_eq <;> omega
    simp only [strconvFormatFloat, hr]
    simp
  · rw [if_neg hm, if_neg h971']
    have h1 : (-(k : Int)).toNat = 0 := by omega
    have h2 : (-(-(k : Int))).toNat = k := by omega
    have hr : roundHalfEven (m * 10 ^ 3 * 2 ^ (-(k : Int)).toNat)
        (2 ^ (-(-(k : Int))).toNat) = a := by
      rw [h1, h2, pow_zero, Nat.mul_one]
      apply roundHalfEven_eq <;> omega
    simp only [strconvFormatFloat, hr]
    simp

theorem ofInt_thousand : Float64.ofInt 1000 = .finite false (1000 * 2 ^ 43) (-43) := by
  decide

theorem bitLen_one : bitLen 1 = 1 := by decide

/-- Integers below `2^53` in magnitude convert to `float64` without rounding. -/
theorem ofInt_exact (n : Int) (h0 : n ≠ 0) (h : n.natAbs < 2 ^ 53) :
    ∃ j : Nat, j ≤ 52 ∧
      Float64.ofInt n = .finite (decide (n < 0)) (n.natAbs * 2 ^ j) (-(j : Int)) := by
  have ha : n.natAbs ≠ 0 := by omega
  unfold Float64.ofInt Float64.round
  generalize n.natAbs = a at h ha ⊢
  have hb1 := bitLen_pos a ha
  have hb2 := bitLen_le_of_lt a 53 h
  have hlow := two_pow_bitLen_le a ha
  have hup := lt_two_pow_bitLen a
  refine ⟨53 - bitLen a, by omega, ?_⟩
  have hfl : floorLog2 a 1 = (bitLen a : Int) - 1 := by
    unfold floorLog2
    rw [bitLen_one]
    have h1 : ((bitLen a : Int) - ((1 : Nat) : Int)).toNat = bitLen a - 1 := by omega
    have h2 : (((1 : Nat) : Int) - (bitLen a : Int)).toNat = 0 := by omega
    rw [h1, h2, pow_zero, Nat.mul_one, Nat.one_mul, if_pos hlow]
    simp
  have hE : max (floorLog2 a 1 - 52) (-1074) = -((53 - bitLen a : Nat) : Int) := by
    rw [hfl]; omega
  have hs : scaledRound a 1 (-((53 - bitLen a : Nat) : Int)) = a * 2 ^ (53 - bitLen a) := by
    unfold scaledRound
    have h1 : (-(-((53 - bitLen a : Nat) : Int))).toNat = 53 - bitLen a := by omega
    have h2 : (-((53 - bitLen a : Nat) : Int)).toNat = 0 := by omega
    rw [h1, h2, pow_zero, Nat.mul_one, roundHalfEven_one]
  have hlt : a * 2 ^ (53 - bitLen a) < 2 ^ 53 := by
    calc a * 2 ^ (53 - bitLen a) < 2 ^ bitLen a * 2 ^ (53 - bitLen a) :=
          Nat.mul_lt_mul_of_pos_right hup (by positivity)
      _ = 2 ^ 53 := by rw [← pow_add]; congr 1; omega
  rw [if_neg ha, hE, hs, if_neg (Nat.ne_of_lt hlt), if_neg (by omega)]

theorem millis_ratio (a j : Nat) :
    a * 2 ^ j * 2 ^ (-(j : Int) - -43).toNat * 1000
      = a * (1000 * 2 ^ 43 * 2 ^ (-43 - -(j : Int)).toNat) := by
  rcases Nat.le_total j 43 with hj | hj
  · have h1 : (-(j : Int) - -43).toNat = 43 - j := by omega
    have h2 : (-43 - -(j : Int)).toNat = 0 := by omega
    have h3 : 2 ^ j * 2 ^ (43 - j) = 2 ^ 43 := by rw [← pow_add]; congr 1; omega
    rw [h1, h2, pow_zero, Nat.mul_one, Nat.mul_assoc a, h3]; ring
  · have h1 : (-(j : Int) - -43).toNat = 0 := by omega
    have h2 : (-43 - -(j : Int)).toNat = j - 43 := by omega
    have h3 : 2 ^ 43 * 2 ^ (j - 43) = 2 ^ j := by rw [← pow_add]; congr 1; omega
    rw [h1, h2, pow_zero, Nat.mul_one, Nat.mul_assoc 1000, h3]; ring

theorem format_millis_zero :
    strconvFormatFloat (Float64.div (Float64.ofInt 0) (Float64.ofInt 1000)) 3
      = millisToSeconds 0 := by
  have h1 : Float64.div (Float64.ofInt 0) (Float64.ofInt 1000) = .finite false 0 (-1074) := by
    decide
  have h2 : roundHalfEven (0 * 10 ^ 3 * 2 ^ (-1074 : Int).toNat) (2 ^ (-(-1074 : Int)).toNat)
      = 0 := by
    apply roundHalfEven_eq
    · have : 0 < 2 ^ (-(-1074 : Int)).toNat := by positivity
      omega
    · have : 0 < 2 ^ (-(-1074 : Int)).toNat := by positivity
      omega
  rw [h1]
  simp only [strconvFormatFloat, h2]
  decide

set_option maxRecDepth 100000 in
theorem format_millis_bound :
    strconvFormatFloat (Float64.div (Float64.ofInt 8796093022208000) (Float64.ofInt 1000)) 3
        = millisToSeconds 8796093022208000
      ∧ strconvFormatFloat (Float64.div (Float64.ofInt (-8796093022208000))
          (Float64.ofInt 1000)) 3 = millisToSeconds (-8796093022208000) := by
  constructor <;> decide

/-- Up to `2^43 * 1000` milliseconds in magnitude, the seconds printed with
three decimals are exactly the milliseconds divided by 1000. -/
theorem format_millis (n : Int) (h : n.natAbs ≤ 2 ^ 43 * 1000) :
    strconvFormatFloat (Float64.div (Float64.ofInt n) (Float64.ofInt 1000)) 3
      = millisToSeconds n := by
  by_cases h0 : n = 0
  · subst h0; exact format_millis_zero
  by_cases hB : n.natAbs = 2 ^ 43 * 1000
  · have : n = 8796093022208000 ∨ n = -8796093022208000 := by omega
    rcases this with rfl | rfl
    · exact format_millis_bound.1
    · exact format_millis_bound.2
  have hlt : n.natAbs < 2 ^ 43 * 1000 := by omega
  obtain ⟨j, hj, hof⟩ := ofInt_exact n h0 (by omega)
  rw [hof, ofInt_thousand]
  have hm2 : ¬ (1000 * 2 ^ 43 = 0) := by norm_num
  simp only [Float64.div, if_neg hm2, Bool.xor_false]
  rw [format_round_millis (decide (n < 0)) _ _ n.natAbs (by positivity) (by omega)
    (millis_ratio n.natAbs j) hlt]
  simp [millisToSeconds, String.append_assoc]

theorem wrapInt_gap (u v a : Int) (h : (u - v - a).natAbs ≤ 2 ^ 43 * 1000) :
    wrapInt (wrapInt (u - v) - a) = u - v - a := by
  unfold wrapInt
  omega

/-- The events of a run that starts with an empty log. -/
theorem trimMKV_run {σ : Type} (sys : Sys σ) (adLength estKeyFrame : Int)
    (engineDir tempDir : String) (s : σ) :
    TrimTrace sys.abs adLength estKeyFrame engineDir tempDir
      (trimMKV sys adLength estKeyFrame engineDir tempDir (World.init s)).1
      (trimMKV sys adLength estKeyFrame engineDir tempDir (World.init s)).2.log := by
  obtain ⟨evs, hlog, ht⟩ := trimMKV_trace sys adLength estKeyFrame engineDir tempDir (World.init s)
  rw [hlog]
  simpa [World.init] using ht

/-- C1 (amended): when every step of `trimMKV` succeeds, the two duration
probes were answered with texts that parse to `len1` and `len2` seconds, and,
for an `adLength` and a gap `(untrimmedLength - videoLength) - adLength` of at
most `2^43 * 1000` milliseconds in magnitude, the log holds the fine cut with
`-ss` equal to `adLength / 1000` and `-t` equal to the gap divided by 1000,
both with exactly three fractional digits; it is the only command that writes
`prefix.episode.mkv`.  For 10000, 60000 and 48000 these are `10.000` and `2.000`. -/
theorem trimMKV_fineCut_arguments {σ : Type} (sys : Sys σ) (adLength estKeyFrame : Int)
    (engineDir tempDir : String) (s : σ)
    (hok : (trimMKV sys adLength estKeyFrame engineDir tempDir (World.init s)).1 = .ok ())
    (had : adLength.natAbs ≤ 2 ^ 43 * 1000) :
    (∃ (ffprobe ffmpeg out1 out2 fine : String) (len1 len2 frameRate : Float64),
      durationProbe ffprobe "untrimmed.episode.mkv" tempDir (.ok out1)
          ∈ (trimMKV sys adLength estKeyFrame engineDir tempDir (World.init s)).2.log
        ∧ strconvParseFloat (stringsReplace out1) = .ok len1
        ∧ durationProbe ffprobe "video.episode.mkv" tempDir (.ok out2)
          ∈ (trimMKV sys adLength estKeyFrame engineDir tempDir (World.init s)).2.log
        ∧ strconvParseFloat (stringsReplace out2) = .ok len2
        ∧ ((Float64.toInt (Float64.mul len1 (Float64.ofInt 1000))
              - Float64.toInt (Float64.mul len2 (Float64.ofInt 1000)) - adLength).natAbs
              ≤ 2 ^ 43 * 1000 →
            Event.run ffmpeg
                ["-ss", millisToSeconds adLength,
                 "-i", "untrimmed.episode.mkv",
                 "-t", millisToSeconds
                    (Float64.toInt (Float64.mul len1 (Float64.ofInt 1000))
                      - Float64.toInt (Float64.mul len2 (Float64.ofInt 1000)) - adLength),
                 "-crf", "5",
                 "-vsync", "1",
                 "-r", strconvFormatFloat frameRate 8,
                 "-c:a", "aac", "-y",
                 "prefix.episode.mkv"] tempDir (.ok fine)
              ∈ (trimMKV sys adLength estKeyFrame engineDir tempDir (World.init s)).2.log
            ∧ ∀ prog args dir res,
                Event.run prog args dir res
                  ∈ (trimMKV sys adLength estKeyFrame engineDir tempDir (World.init s)).2.log →
                args.getLast? = some "prefix.episode.mkv" →
                prog = ffmpeg ∧ dir = tempDir ∧ res = .ok fine
                  ∧ args = ["-ss", millisToSeconds adLength,
                     "-i", "untrimmed.episode.mkv",
                     "-t", millisToSeconds
                        (Float64.toInt (Float64.mul len1 (Float64.ofInt 1000))
                          - Float64.toInt (Float64.mul len2 (Float64.ofInt 1000)) - adLength),
                     "-crf", "5",
                     "-vsync", "1",
                     "-r", strconvFormatFloat frameRate 8,
                     "-c:a", "aac", "-y",
                     "prefix.episode.mkv"]))
      ∧ millisToSeconds 10000 = "10.000"
      ∧ millisToSeconds ((60000 - 48000) - 10000) = "2.000" := by
  refine ⟨?_, by decide, by decide⟩
  have ht := trimMKV_run sys adLength estKeyFrame engineDir tempDir s
  rw [hok] at ht
  generalize (trimMKV sys adLength estKeyFrame engineDir tempDir (World.init s)).2.log = log at ht ⊢
  cases ht with
  | done untrimmedLength evs1 ffmpeg rough videoLength evs2 frameRate evs3 fine merged
      h1 habs h2 h3 =>
    cases h1 with
    | done ffprobe out1 len1 hp1 hparse1 =>
    cases h2 with
    | done ffprobe2 out2 len2 hp2 hparse2 =>
    cases h3 with
    | done ffprobe3 out3 num den numerator denominator hp3 h0 hnum h1 hden =>
    have e2 : ffprobe = ffprobe2 := by rw [hp1] at hp2; injection hp2 with h
    subst e2
    refine ⟨ffprobe, ffmpeg, out1, out2, fine, len1, len2, Float64.div numerator denominator,
      ?_, hparse1, ?_, hparse2, ?_⟩
    · simp
    · simp
    · intro hgap
      have hss := format_millis adLength had
      have ht := format_millis _ hgap
      have hw := wrapInt_gap _ _ _ hgap
      have heq : fineCut ffmpeg adLength (Float64.toInt (Float64.mul len1 (Float64.ofInt 1000)))
          (Float64.toInt (Float64.mul len2 (Float64.ofInt 1000)))
          (Float64.div numerator denominator) tempDir (.ok fine)
          = Event.run ffmpeg
              ["-ss", millisToSeconds adLength,
               "-i", "untrimmed.episode.mkv",
               "-t", millisToSeconds
                  (Float64.toInt (Float64.mul len1 (Float64.ofInt 1000))
                    - Float64.toInt (Float64.mul len2 (Float64.ofInt 1000)) - adLength),
               "-crf", "5",
               "-vsync", "1",
               "-r", strconvFormatFloat (Float64.div numerator denominator) 8,
               "-c:a", "aac", "-y",
               "prefix.episode.mkv"] tempDir (.ok fine) := by
        unfold fineCut
        rw [hw, hss, ht]
      rw [heq]
      constructor
      · simp
      · intro prog args dir res hmem hpre
        simp [staleRemovals, stagingRename, durationProbe, roughCut, frameRateProbe,
          manifestWrite, concatRun] at hmem
        rcases hmem with h | h | h | h | h | h <;> obtain ⟨rfl, rfl, rfl, rfl⟩ := h
          <;> simp at hpre
        simp

set_option maxRecDepth 100000 in
/-- C1, at a concrete input: with `adLength = 10000`, probes answering 60 s and
48 s, every step succeeds and the fine cut is run with `-ss 10.000 -t 2.000`. -/
theorem trimMKV_fineCut_arguments_witness :
    (trimMKV (fileSys (scriptedTool "60.000000\r\n" "48.000000\r\n" "30/1\r\n")) 10000 12000
        "engine" "temp" (World.init freshFiles)).1 = .ok ()
      ∧ Event.run "C:\\anirip\\engine\\ffmpeg.exe"
          ["-ss", "10.000", "-i", "untrimmed.episode.mkv", "-t", "2.000", "-crf", "5",
           "-vsync", "1", "-r", "30.00000000", "-c:a", "aac", "-y", "prefix.episode.mkv"]
          "temp" (.ok "")
        ∈ (trimMKV (fileSys (scriptedTool "60.000000\r\n" "48.000000\r\n" "30/1\r\n")) 10000
            12000 "engine" "temp" (World.init freshFiles)).2.log
      ∧ ∃ out1 out2 len1 len2,
          strconvParseFloat (stringsReplace out1) = .ok len1
            ∧ strconvParseFloat (stringsReplace out2) = .ok len2 := by
  refine ⟨by decide, by decide, ?_⟩
  obtain ⟨⟨_, _, out1, out2, _, len1, len2, _, _, h1, _, h2, _⟩, _⟩ :=
    trimMKV_fineCut_arguments (fileSys (scriptedTool "60.000000\r\n" "48.000000\r\n" "30/1\r\n"))
      10000 12000 "engine" "temp" freshFiles (by decide) (by decide)
  exact ⟨out1, out2, len1, len2, h1, h2⟩

set_option maxRecDepth 100000 in
/-- C1 fails as stated: with `adLength = 2^43 * 1000 + 1` every step succeeds,
and the fine cut is run with `-ss 8796093022208.002`, while `adLength / 1000`
with three fractional digits is `8796093022208.001`. -/
theorem trimMKV_fineCut_seek_counterexample :
    (trimMKV (fileSys (scriptedTool "60.000000\r\n" "48.000000\r\n" "30/1\r\n"))
        8796093022208001 12000 "engine" "temp" (World.init freshFiles)).1 = .ok ()
      ∧ Event.run "C:\\anirip\\engine\\ffmpeg.exe"
          ["-ss", "8796093022208.002", "-i", "untrimmed.episode.mkv",
           "-t", "-8796093022196.001", "-crf", "5",
           "-vsync", "1", "-r", "30.00000000", "-c:a", "aac", "-y", "prefix.episode.mkv"]
          "temp" (.ok "")
        ∈ (trimMKV (fileSys (scriptedTool "60.000000\r\n" "48.000000\r\n" "30/1\r\n"))
            8796093022208001 12000 "engine" "temp" (World.init freshFiles)).2.log
      ∧ millisToSeconds 8796093022208001 = "8796093022208.001"
      ∧ (trimMKV (fileSys (scriptedTool "60.000000\r\n" "48.000000\r\n" "30/1\r\n"))
            8796093022208001 12000 "engine" "temp" (World.init freshFiles)).2.log.filter
          Event.isRun
        = [durationProbe "C:\\anirip\\engine\\ffprobe.exe" "untrimmed.episode.mkv" "temp"
             (.ok "60.000000\r\n"),
           Event.run "C:\\anirip\\engine\\ffmpeg.exe"
             ["-ss", "12.000", "-i", "untrimmed.episode.mkv", "-c", "copy",
              "-avoid_negative_ts", "1", "-y", "video.episode.mkv"] "temp" (.ok ""),
           durationProbe "C:\\anirip\\engine\\ffprobe.exe" "video.episode.mkv" "temp"
             (.ok "48.000000\r\n"),
           frameRateProbe "C:\\anirip\\engine\\ffprobe.exe" "video.episode.mkv" "temp"
             (.ok "30/1\r\n"),
           Event.run "C:\\anirip\\engine\\ffmpeg.exe"
             ["-ss", "8796093022208.002", "-i", "untrimmed.episode.mkv",
              "-t", "-8796093022196.001", "-crf", "5",
              "-vsync", "1", "-r", "30.00000000", "-c:a", "aac", "-y", "prefix.episode.mkv"]
             "temp" (.ok ""),
           Event.run "C:\\anirip\\engine\\ffmpeg.exe"
             ["-f", "concat", "-i", "list.episode.txt", "-c", "copy", "-y", "episode.mkv"]
             "temp" (.ok "")] := by
  refine ⟨by decide, by decide, by decide, by decide⟩

/-! ## Fail-stop -/

theorem OnlyLast.last {P : Event → Prop} {l : List Event} (h : OnlyLast P l)
    {pre : List Event} {ev : Event} {post : List Event} (hl : l = pre ++ ev :: post)
    (hP : P ev) : post = [] := by
  induction pre generalizing l with
  | nil =>
      subst hl
      exact h.1 hP
  | cons x xs ih =>
      subst hl
      exact ih h.2 rfl

theorem trace_failed_last {abs : String → Except GoError String} {adLength estKeyFrame : Int}
    {engineDir tempDir : String} {r : Outcome Unit} {l : List Event}
    (ht : TrimTrace abs adLength estKeyFrame engineDir tempDir r l) :
    OnlyLast (fun ev => ev.failed = true) l
      ∧ ((∃ ev ∈ l, ev.failed = true) → ∃ err, r = .error err) := by
  cases ht with
  | renameFailed err => simp [OnlyLast, Event.failed, staleRemovals, stagingRename]
  | firstProbeFailed err evs1 h1 =>
      cases h1 <;> simp [OnlyLast, Event.failed, staleRemovals, stagingRename, durationProbe]
  | ffmpegMissing u evs1 err h1 habs =>
      cases h1
      simp [OnlyLast, Event.failed, staleRemovals, stagingRename, durationProbe]
  | roughCutFailed u evs1 ffmpeg err h1 habs =>
      cases h1
      simp [OnlyLast, Event.failed, staleRemovals, stagingRename, durationProbe, roughCut]
  | secondProbeFailed u evs1 ffmpeg rough err evs2 h1 habs h2 =>
      cases h1
      cases h2 <;>
        simp [OnlyLast, Event.failed, staleRemovals, stagingRename, durationProbe, roughCut]
  | frameRateFailed u evs1 ffmpeg rough v evs2 err evs3 h1 habs h2 h3 =>
      cases h1
      cases h2
      cases h3 <;>
        simp [OnlyLast, Event.failed, staleRemovals, stagingRename, durationProbe, roughCut,
          frameRateProbe]
  | frameRatePanic u evs1 ffmpeg rough v evs2 msg evs3 h1 habs h2 h3 =>
      cases h1
      cases h2
      cases h3
      simp [OnlyLast, Event.failed, staleRemovals, stagingRename, durationProbe, roughCut,
          frameRateProbe]
  | fineCutFailed u evs1 ffmpeg rough v evs2 rate evs3 err h1 habs h2 h3 =>
      cases h1
      cases h2
      cases h3
      simp [OnlyLast, Event.failed, staleRemovals, stagingRename, durationProbe, roughCut,
          frameRateProbe, fineCut]
  | writeFailed u evs1 ffmpeg rough v evs2 rate evs3 fine err h1 habs h2 h3 =>
      cases h1
      cases h2
      cases h3
      simp [OnlyLast, Event.failed, staleRemovals, stagingRename, durationProbe, roughCut,
          frameRateProbe, fineCut, manifestWrite]
  | concatFailed u evs1 ffmpeg rough v evs2 rate evs3 fine err h1 habs h2 h3 =>
      cases h1
      cases h2
      cases h3
      simp [OnlyLast, Event.failed, staleRemovals, stagingRename, durationProbe, roughCut,
          frameRateProbe, fineCut, manifestWrite, concatRun]
  | done u evs1 ffmpeg rough v evs2 rate evs3 fine merged h1 habs h2 h3 =>
      cases h1
      cases h2
      cases h3
      simp [OnlyLast, Event.failed, staleRemovals, stagingRename, durationProbe, roughCut,
          frameRateProbe, fineCut, manifestWrite, concatRun]

theorem trace_duration_last {abs : String → Except GoError String} {adLength estKeyFrame : Int}
    {engineDir tempDir : String} {r : Outcome Unit} {l : List Event}
    (ht : TrimTrace abs adLength estKeyFrame engineDir tempDir r l)
    (prog file dir out : String) (e : NumError)
    (hbad : strconvParseFloat (stringsReplace out) = .error e) :
    OnlyLast (fun ev => ev = durationProbe prog file dir (.ok out)) l
      ∧ (durationProbe prog file dir (.ok out) ∈ l → ∃ err, r = .error err) := by
  cases ht
  all_goals try cases ‹LengthTrace _ "untrimmed.episode.mkv" _ _ _ _›
  all_goals try cases ‹LengthTrace _ "video.episode.mkv" _ _ _ _›
  all_goals try cases ‹FrameRateTrace _ _ _ _ _ _›
  all_goals
    simp [OnlyLast, staleRemovals, stagingRename, durationProbe, roughCut, frameRateProbe,
      fineCut, manifestWrite, concatRun]
  all_goals try (repeat' first | apply And.intro | intro _)
  all_goals try subst_vars
  all_goals try simp_all

theorem trace_numerator_last {abs : String → Except GoError String} {adLength estKeyFrame : Int}
    {engineDir tempDir : String} {r : Outcome Unit} {l : List Event}
    (ht : TrimTrace abs adLength estKeyFrame engineDir tempDir r l)
    (prog file dir out num : String) (e : NumError)
    (h0 : (stringsSplit (stringsReplace out))[0]? = some num)
    (hnum : strconvParseFloat num = .error e) :
    OnlyLast (fun ev => ev = frameRateProbe prog file dir (.ok out)) l
      ∧ (frameRateProbe prog file dir (.ok out) ∈ l → ∃ err, r = .error err) := by
  cases ht
  all_goals try cases ‹LengthTrace _ "untrimmed.episode.mkv" _ _ _ _›
  all_goals try cases ‹LengthTrace _ "video.episode.mkv" _ _ _ _›
  all_goals try cases ‹FrameRateTrace _ _ _ _ _ _›
  all_goals
    simp [OnlyLast, staleRemovals, stagingRename, durationProbe, roughCut, frameRateProbe,
      fineCut, manifestWrite, concatRun]
  all_goals try (repeat' first | apply And.intro | intro _)
  all_goals try subst_vars
  all_goals try simp_all

theorem trace_denominator_last {abs : String → Except GoError String}
    {adLength estKeyFrame : Int} {engineDir tempDir : String} {r : Outcome Unit}
    {l : List Event} (ht : TrimTrace abs adLength estKeyFrame engineDir tempDir r l)
    (prog file dir out den : String) (e : NumError)
    (h1 : (stringsSplit (stringsReplace out))[1]? = some den)
    (hden : strconvParseFloat den = .error e) :
    OnlyLast (fun ev => ev = frameRateProbe prog file dir (.ok out)) l
      ∧ (frameRateProbe prog file dir (.ok out) ∈ l → ∃ err, r = .error err) := by
  cases ht
  all_goals try cases ‹LengthTrace _ "untrimmed.episode.mkv" _ _ _ _›
  all_goals try cases ‹LengthTrace _ "video.episode.mkv" _ _ _ _›
  all_goals try cases ‹FrameRateTrace _ _ _ _ _ _›
  all_goals
    simp [OnlyLast, staleRemovals, stagingRename, durationProbe, roughCut, frameRateProbe,
      fineCut, manifestWrite, concatRun]
  all_goals try (repeat' first | apply And.intro | intro _)
  all_goals try subst_vars
  all_goals try simp_all

theorem trace_removals {abs : String → Except GoError String}
    {adLength estKeyFrame : Int} {engineDir tempDir : String} {r : Outcome Unit}
    {l : List Event} (ht : TrimTrace abs adLength estKeyFrame engineDir tempDir r l) :
    (r ≠ .ok () → l.filter Event.isRemove = staleRemovals tempDir)
      ∧ (r = .ok () → l.filter Event.isRemove = staleRemovals tempDir ++ staleRemovals tempDir) := by
  cases ht
  all_goals try cases ‹LengthTrace _ "untrimmed.episode.mkv" _ _ _ _›
  all_goals try cases ‹LengthTrace _ "video.episode.mkv" _ _ _ _›
  all_goals try cases ‹FrameRateTrace _ _ _ _ _ _›
  all_goals
    simp [Event.isRemove, staleRemovals, stagingRename, durationProbe, roughCut, frameRateProbe,
      fineCut, manifestWrite, concatRun]

/-- The successful run: every step in order, each with a nil error. -/
theorem trace_success {abs : String → Except GoError String}
    {adLength estKeyFrame : Int} {engineDir tempDir : String} {l : List Event}
    (ht : TrimTrace abs adLength estKeyFrame engineDir tempDir (.ok ()) l) :
    ∃ (ffprobe ffmpeg out1 rough out2 out3 num den fine merged : String)
      (len1 len2 numerator denominator : Float64),
      strconvParseFloat (stringsReplace out1) = .ok len1
        ∧ strconvParseFloat (stringsReplace out2) = .ok len2
        ∧ (stringsSplit (stringsReplace out3))[0]? = some num
        ∧ strconvParseFloat num = .ok numerator
        ∧ (stringsSplit (stringsReplace out3))[1]? = some den
        ∧ strconvParseFloat den = .ok denominator
        ∧ l = staleRemovals tempDir
            ++ [stagingRename tempDir none,
                Event.abs (engineDir ++ "\\ffprobe.exe") (.ok ffprobe),
                durationProbe ffprobe "untrimmed.episode.mkv" tempDir (.ok out1),
                Event.abs (engineDir ++ "\\ffmpeg.exe") (.ok ffmpeg),
                roughCut ffmpeg estKeyFrame tempDir (.ok rough),
                Event.abs (engineDir ++ "\\ffprobe.exe") (.ok ffprobe),
                durationProbe ffprobe "video.episode.mkv" tempDir (.ok out2),
                Event.abs (engineDir ++ "\\ffprobe.exe") (.ok ffprobe),
                frameRateProbe ffprobe "video.episode.mkv" tempDir (.ok out3),
                fineCut ffmpeg adLength
                  (Float64.toInt (Float64.mul len1 (Float64.ofInt 1000)))
                  (Float64.toInt (Float64.mul len2 (Float64.ofInt 1000)))
                  (Float64.div numerator denominator) tempDir (.ok fine),
                manifestWrite tempDir none,
                concatRun ffmpeg tempDir (.ok merged)]
            ++ staleRemovals tempDir := by
  cases ht with
  | done untrimmedLength evs1 ffmpeg rough videoLength evs2 frameRate evs3 fine merged
      h1 habs h2 h3 =>
    cases h1 with
    | done ffprobe out1 len1 hp1 hparse1 =>
    cases h2 with
    | done ffprobe2 out2 len2 hp2 hparse2 =>
    cases h3 with
    | done ffprobe3 out3 num den numerator denominator hp3 h0 hnum h1 hden =>
    have e2 : ffprobe = ffprobe2 := by rw [hp1] at hp2; injection hp2 with h
    have e3 : ffprobe = ffprobe3 := by rw [hp1] at hp3; injection hp3 with h
    subst e2 e3
    exact ⟨ffprobe, ffmpeg, out1, rough, out2, out3, num, den, fine, merged, len1, len2,
      numerator, denominator, hparse1, hparse2, h0, hnum, h1, hden, by simp⟩

theorem trace_writes {abs : String → Except GoError String}
    {adLength estKeyFrame : Int} {engineDir tempDir : String} {r : Outcome Unit}
    {l : List Event} (ht : TrimTrace abs adLength estKeyFrame engineDir tempDir r l) :
    (∀ path data perm err, Event.writeFile path data perm err ∈ l →
        Event.writeFile path data perm err = manifestWrite tempDir err)
      ∧ (r = .ok () → manifestWrite tempDir none ∈ l) := by
  cases ht
  all_goals try cases ‹LengthTrace _ "untrimmed.episode.mkv" _ _ _ _›
  all_goals try cases ‹LengthTrace _ "video.episode.mkv" _ _ _ _›
  all_goals try cases ‹FrameRateTrace _ _ _ _ _ _›
  all_goals
    simp [staleRemovals, stagingRename, durationProbe, roughCut, frameRateProbe,
      fineCut, manifestWrite, concatRun]
  all_goals
    intro _ _ _ _ h1 h2 h3 _
    exact ⟨h1, h2, h3⟩

theorem lengthTrace_error_cause {abs : String → Except GoError String}
    {fileName engineDir tempDir : String} {err : GoError} {evs : List Event}
    (h : LengthTrace abs fileName engineDir tempDir (.error err) evs) :
    (∃ ev ∈ evs, ev.failed = true)
      ∨ (∃ prog out e, durationProbe prog fileName tempDir (.ok out) ∈ evs
          ∧ strconvParseFloat (stringsReplace out) = .error e) := by
  cases h with
  | absFailed err h => exact Or.inl ⟨_, List.mem_singleton.2 rfl, rfl⟩
  | runFailed ffprobe err h =>
      exact Or.inl ⟨durationProbe ffprobe fileName tempDir (.error err), by simp, rfl⟩
  | parseFailed ffprobe output err h hparse =>
      exact Or.inr ⟨ffprobe, output, err, by simp, hparse⟩

theorem frameRateTrace_error_cause {abs : String → Except GoError String}
    {fileName engineDir tempDir : String} {err : GoError} {evs : List Event}
    (h : FrameRateTrace abs fileName engineDir tempDir (.error err) evs) :
    (∃ ev ∈ evs, ev.failed = true)
      ∨ (∃ prog out piece e, frameRateProbe prog fileName tempDir (.ok out) ∈ evs
          ∧ ((stringsSplit (stringsReplace out))[0]? = some piece
              ∨ (stringsSplit (stringsReplace out))[1]? = some piece)
          ∧ strconvParseFloat piece = .error e) := by
  cases h with
  | absFailed err h => exact Or.inl ⟨_, List.mem_singleton.2 rfl, rfl⟩
  | runFailed ffprobe err h =>
      exact Or.inl ⟨frameRateProbe ffprobe fileName tempDir (.error err), by simp, rfl⟩
  | numeratorFailed ffprobe output num err h h0 hnum =>
      exact Or.inr ⟨ffprobe, output, num, err, by simp, Or.inl h0, hnum⟩
  | denominatorFailed ffprobe output num den numerator err h h0 hnum h1 hden =>
      exact Or.inr ⟨ffprobe, output, den, err, by simp, Or.inr h1, hden⟩

theorem trace_error_cause {abs : String → Except GoError String}
    {adLength estKeyFrame : Int} {engineDir tempDir : String} {err : GoError}
    {l : List Event} (ht : TrimTrace abs adLength estKeyFrame engineDir tempDir (.error err) l) :
    (∃ ev ∈ l, ev.failed = true)
      ∨ (∃ prog file dir out e, durationProbe prog file dir (.ok out) ∈ l
          ∧ strconvParseFloat (stringsReplace out) = .error e)
      ∨ (∃ prog file dir out piece e, frameRateProbe prog file dir (.ok out) ∈ l
          ∧ ((stringsSplit (stringsReplace out))[0]? = some piece
              ∨ (stringsSplit (stringsReplace out))[1]? = some piece)
          ∧ strconvParseFloat piece = .error e) := by
  cases ht with
  | renameFailed err =>
      exact Or.inl ⟨stagingRename tempDir (some err), by simp, rfl⟩
  | firstProbeFailed err evs1 h1 =>
      rcases lengthTrace_error_cause h1 with ⟨ev, hm, hf⟩ | ⟨prog, out, e, hm, hp⟩
      · exact Or.inl ⟨ev, by simp [hm], hf⟩
      · exact Or.inr (Or.inl ⟨prog, "untrimmed.episode.mkv", tempDir, out, e, by simp [hm], hp⟩)
  | ffmpegMissing u evs1 err h1 habs =>
      exact Or.inl ⟨Event.abs (engineDir ++ "\\ffmpeg.exe") (.error err), by simp, rfl⟩
  | roughCutFailed u evs1 ffmpeg err h1 habs =>
      exact Or.inl ⟨roughCut ffmpeg estKeyFrame tempDir (.error err), by simp, rfl⟩
  | secondProbeFailed u evs1 ffmpeg rough err evs2 h1 habs h2 =>
      rcases lengthTrace_error_cause h2 with ⟨ev, hm, hf⟩ | ⟨prog, out, e, hm, hp⟩
      · exact Or.inl ⟨ev, by simp [hm], hf⟩
      · exact Or.inr (Or.inl ⟨prog, "video.episode.mkv", tempDir, out, e, by simp [hm], hp⟩)
  | frameRateFailed u evs1 ffmpeg rough v evs2 err evs3 h1 habs h2 h3 =>
      rcases frameRateTrace_error_cause h3 with ⟨ev, hm, hf⟩ | ⟨prog, out, piece, e, hm, hp, hq⟩
      · exact Or.inl ⟨ev, by simp [hm], hf⟩
      · exact Or.inr (Or.inr ⟨prog, "video.episode.mkv", tempDir, out, piece, e, by simp [hm],
          hp, hq⟩)
  | fineCutFailed u evs1 ffmpeg rough v evs2 rate evs3 err h1 habs h2 h3 =>
      exact Or.inl ⟨fineCut ffmpeg adLength u v rate tempDir (.error err), by simp, rfl⟩
  | writeFailed u evs1 ffmpeg rough v evs2 rate evs3 fine err h1 habs h2 h3 =>
      exact Or.inl ⟨manifestWrite tempDir (some err), by simp, rfl⟩
  | concatFailed u evs1 ffmpeg rough v evs2 rate evs3 fine err h1 habs h2 h3 =>
      exact Or.inl ⟨concatRun ffmpeg tempDir (.error err), by simp, rfl⟩

/-- A run that panics: the frame-rate probe answered a text without a slash. -/
theorem trace_panic_cause {abs : String → Except GoError String}
    {adLength estKeyFrame : Int} {engineDir tempDir : String} {msg : String}
    {l : List Event} (ht : TrimTrace abs adLength estKeyFrame engineDir tempDir (.panic msg) l) :
    ∃ prog out num numerator,
      l.getLast? = some (frameRateProbe prog "video.episode.mkv" tempDir (.ok out))
        ∧ (stringsSplit (stringsReplace out))[0]? = some num
        ∧ strconvParseFloat num = .ok numerator
        ∧ (stringsSplit (stringsReplace out))[1]? = none
        ∧ msg = "index out of range [1]"
        ∧ frameRateProbe prog "video.episode.mkv" tempDir (.ok out) ∈ l
        ∧ ∀ ev ∈ l, ev.failed = false := by
  cases ht with
  | frameRatePanic u evs1 ffmpeg rough v evs2 msg evs3 h1 habs h2 h3 =>
    cases h1
    cases h2
    cases h3 with
    | indexPanic ffprobe output num numerator h h0 hnum h1 =>
      refine ⟨ffprobe, output, num, numerator, ?_, h0, hnum, h1, rfl, ?_, ?_⟩
      · simp [staleRemovals]
      · simp
      · simp [staleRemovals, stagingRename, durationProbe, roughCut, frameRateProbe, Event.failed]

/-- Once the fine cut has succeeded the manifest write is in the log. -/
theorem trace_fine_then_write {abs : String → Except GoError String}
    {adLength estKeyFrame : Int} {engineDir tempDir : String} {r : Outcome Unit}
    {l : List Event} (ht : TrimTrace abs adLength estKeyFrame engineDir tempDir r l)
    (prog : String) (args : List String) (dir fine : String)
    (hmem : Event.run prog args dir (.ok fine) ∈ l)
    (hlast : args.getLast? = some "prefix.episode.mkv") :
    ∃ err, manifestWrite tempDir err ∈ l := by
  cases ht
  all_goals try cases ‹LengthTrace _ "untrimmed.episode.mkv" _ _ _ _›
  all_goals try cases ‹LengthTrace _ "video.episode.mkv" _ _ _ _›
  all_goals try cases ‹FrameRateTrace _ _ _ _ _ _›
  all_goals
    simp [staleRemovals, stagingRename, durationProbe, roughCut, frameRateProbe,
      fineCut, manifestWrite, concatRun] at hmem ⊢
  all_goals
    repeat' first
      | (obtain ⟨-, h, -⟩ := hmem; subst h; simp at hlast; done)
      | (rcases hmem with hmem | hmem)

/-! ## The claims on `trimMKV` -/

/-- The runs of `trimMKV` stop at the first step that does not succeed.  A call
that reports an error (the staging rename, a path lookup, a started program,
the manifest write) is the last event of the log and `trimMKV` returns a non-nil
error; so is a duration probe or a frame-rate probe whose text `strconv`
rejects.  After a run that did not return nil the only removals in the log are
the four before staging, so no intermediate file was deleted.  A run that
returns nil consists of all eight steps, each with a nil error, followed by the
four removals.  The one run that ends neither way is the panic on a frame-rate
answer without a slash: it stops at the frame-rate probe, no call having
reported an error. -/
theorem trimMKV_failstop {σ : Type} (sys : Sys σ) (adLength estKeyFrame : Int)
    (engineDir tempDir : String) (s : σ) :
    (∀ pre ev post,
        (trimMKV sys adLength estKeyFrame engineDir tempDir (World.init s)).2.log
            = pre ++ ev :: post →
        ev.failed = true →
        post = [] ∧ ∃ err,
          (trimMKV sys adLength estKeyFrame engineDir tempDir (World.init s)).1 = .error err)
      ∧ (∀ pre prog file dir out post e,
          (trimMKV sys adLength estKeyFrame engineDir tempDir (World.init s)).2.log
              = pre ++ durationProbe prog file dir (.ok out) :: post →
          strconvParseFloat (stringsReplace out) = .error e →
          post = [] ∧ ∃ err,
            (trimMKV sys adLength estKeyFrame engineDir tempDir (World.init s)).1 = .error err)
      ∧ (∀ pre prog file dir out post piece e,
          (trimMKV sys adLength estKeyFrame engineDir tempDir (World.init s)).2.log
              = pre ++ frameRateProbe prog file dir (.ok out) :: post →
          ((stringsSplit (stringsReplace out))[0]? = some piece
            ∨ (stringsSplit (stringsReplace out))[1]? = some piece) →
          strconvParseFloat piece = .error e →
          post = [] ∧ ∃ err,
            (trimMKV sys adLength estKeyFrame engineDir tempDir (World.init s)).1 = .error err)
      ∧ ((trimMKV sys adLength estKeyFrame engineDir tempDir (World.init s)).1 ≠ .ok () →
          (trimMKV sys adLength estKeyFrame engineDir tempDir (World.init s)).2.log.filter
              Event.isRemove
            = staleRemovals tempDir)
      ∧ ((trimMKV sys adLength estKeyFrame engineDir tempDir (World.init s)).1 = .ok () →
          ∃ (ffprobe ffmpeg out1 rough out2 out3 num den fine merged : String)
            (len1 len2 numerator denominator : Float64),
            strconvParseFloat (stringsReplace out1) = .ok len1
              ∧ strconvParseFloat (stringsReplace out2) = .ok len2
              ∧ (stringsSplit (stringsReplace out3))[0]? = some num
              ∧ strconvParseFloat num = .ok numerator
              ∧ (stringsSplit (stringsReplace out3))[1]? = some den
              ∧ strconvParseFloat den = .ok denominator
              ∧ (trimMKV sys adLength estKeyFrame engineDir tempDir (World.init s)).2.log
                = staleRemovals tempDir
                  ++ [stagingRename tempDir none,
                      Event.abs (engineDir ++ "\\ffprobe.exe") (.ok ffprobe),
                      durationProbe ffprobe "untrimmed.episode.mkv" tempDir (.ok out1),
                      Event.abs (engineDir ++ "\\ffmpeg.exe") (.ok ffmpeg),
                      roughCut ffmpeg estKeyFrame tempDir (.ok rough),
                      Event.abs (engineDir ++ "\\ffprobe.exe") (.ok ffprobe),
                      durationProbe ffprobe "video.episode.mkv" tempDir (.ok out2),
                      Event.abs (engineDir ++ "\\ffprobe.exe") (.ok ffprobe),
                      frameRateProbe ffprobe "video.episode.mkv" tempDir (.ok out3),
                      fineCut ffmpeg adLength
                        (Float64.toInt (Float64.mul len1 (Float64.ofInt 1000)))
                        (Float64.toInt (Float64.mul len2 (Float64.ofInt 1000)))
                        (Float64.div numerator denominator) tempDir (.ok fine),
                      manifestWrite tempDir none,
                      concatRun ffmpeg tempDir (.ok merged)]
                  ++ staleRemovals tempDir)
      ∧ (∀ msg,
          (trimMKV sys adLength estKeyFrame engineDir tempDir (World.init s)).1 = .panic msg →
          ∃ prog out num numerator,
            (trimMKV sys adLength estKeyFrame engineDir tempDir (World.init s)).2.log.getLast?
                = some (frameRateProbe prog "video.episode.mkv" tempDir (.ok out))
              ∧ (stringsSplit (stringsReplace out))[0]? = some num
              ∧ strconvParseFloat num = .ok numerator
              ∧ (stringsSplit (stringsReplace out))[1]? = none
              ∧ msg = "index out of range [1]"
              ∧ ∀ ev ∈ (trimMKV sys adLength estKeyFrame engineDir tempDir (World.init s)).2.log,
                  ev.failed = false) := by
  have ht := trimMKV_run sys adLength estKeyFrame engineDir tempDir s
  generalize (trimMKV sys adLength estKeyFrame engineDir tempDir (World.init s)).1 = r at ht ⊢
  generalize (trimMKV sys adLength estKeyFrame engineDir tempDir (World.init s)).2.log = l
    at ht ⊢
  refine ⟨?_, ?_, ?_, (trace_removals ht).1, ?_, ?_⟩
  · intro pre ev post hl hf
    obtain ⟨h1, h2⟩ := trace_failed_last ht
    exact ⟨h1.last hl hf, h2 ⟨ev, by simp [hl], hf⟩⟩
  · intro pre prog file dir out post e hl hbad
    obtain ⟨h1, h2⟩ := trace_duration_last ht prog file dir out e hbad
    exact ⟨h1.last hl rfl, h2 (by simp [hl])⟩
  · intro pre prog file dir out post piece e hl hpiece hbad
    rcases hpiece with h0 | h1
    · obtain ⟨h1, h2⟩ := trace_numerator_last ht prog file dir out piece e h0 hbad
      exact ⟨h1.last hl rfl, h2 (by simp [hl])⟩
    · obtain ⟨h3, h2⟩ := trace_denominator_last ht prog file dir out piece e h1 hbad
      exact ⟨h3.last hl rfl, h2 (by simp [hl])⟩
  · intro hr
    subst hr
    exact trace_success ht
  · intro msg hr
    subst hr
    obtain ⟨prog, out, num, numerator, h1, h2, h3, h4, h5, -, h6⟩ := trace_panic_cause ht
    exact ⟨prog, out, num, numerator, h1, h2, h3, h4, h5, h6⟩

set_option maxRecDepth 100000 in
/-- C8 fails on the code.  When the frame-rate probe answers `30` and a line
break, a text without a slash, the frame-rate step of `trimMKV` fails, yet
`trimMKV` returns no error: reading `frameRateArray[1]` panics.  No call has
reported an error, the log ends with the frame-rate probe, and the run is not
a nil return either.  The sibling failures of the same step are returned as
errors: an answer `x/1` or `30/x`, whose numerator or denominator `strconv`
rejects. -/
theorem trimMKV_panics_on_frame_rate_without_slash :
    (trimMKV (fileSys (scriptedTool "60.000000\r\n" "48.000000\r\n" "30\r\n")) 10000 12000
        "engine" "temp" (World.init freshFiles)).1 = .panic "index out of range [1]"
      ∧ (∀ err,
          (trimMKV (fileSys (scriptedTool "60.000000\r\n" "48.000000\r\n" "30\r\n")) 10000 12000
            "engine" "temp" (World.init freshFiles)).1 ≠ .error err)
      ∧ (trimMKV (fileSys (scriptedTool "60.000000\r\n" "48.000000\r\n" "30\r\n")) 10000 12000
            "engine" "temp" (World.init freshFiles)).2.log
        = staleRemovals "temp"
          ++ [stagingRename "temp" none,
              Event.abs "engine\\ffprobe.exe" (.ok "C:\\anirip\\engine\\ffprobe.exe"),
              durationProbe "C:\\anirip\\engine\\ffprobe.exe" "untrimmed.episode.mkv" "temp"
                (.ok "60.000000\r\n"),
              Event.abs "engine\\ffmpeg.exe" (.ok "C:\\anirip\\engine\\ffmpeg.exe"),
              roughCut "C:\\anirip\\engine\\ffmpeg.exe" 12000 "temp" (.ok ""),
              Event.abs "engine\\ffprobe.exe" (.ok "C:\\anirip\\engine\\ffprobe.exe"),
              durationProbe "C:\\anirip\\engine\\ffprobe.exe" "video.episode.mkv" "temp"
                (.ok "48.000000\r\n"),
              Event.abs "engine\\ffprobe.exe" (.ok "C:\\anirip\\engine\\ffprobe.exe"),
              frameRateProbe "C:\\anirip\\engine\\ffprobe.exe" "video.episode.mkv" "temp"
                (.ok "30\r\n")]
      ∧ ((trimMKV (fileSys (scriptedTool "60.000000\r\n" "48.000000\r\n" "30\r\n")) 10000 12000
            "engine" "temp" (World.init freshFiles)).2.log.all (fun ev => !ev.failed)) = true
      ∧ (trimMKV (fileSys (scriptedTool "60.000000\r\n" "48.000000\r\n" "x/1\r\n")) 10000 12000
          "engine" "temp" (World.init freshFiles)).1
        = .error (.anirip
            "There was an error parsing the numerator of our framerate for video.episode.mkv"
            (.num .invalid))
      ∧ (trimMKV (fileSys (scriptedTool "60.000000\r\n" "48.000000\r\n" "30/x\r\n")) 10000 12000
          "engine" "temp" (World.init freshFiles)).1
        = .error (.anirip
            "There was an error parsing the denominator of our framerate for video.episode.mkv"
            (.num .invalid)) := by
  refine ⟨by decide, ?_, by decide, by decide, by decide, by decide⟩
  intro err h
  have hp : (trimMKV (fileSys (scriptedTool "60.000000\r\n" "48.000000\r\n" "30\r\n")) 10000 12000
        "engine" "temp" (World.init freshFiles)).1 = .panic "index out of range [1]" := by decide
  rw [hp] at h
  cases h

/-- C6: the concat manifest of `trimMKV`.  Every write `trimMKV` makes is the
file `list.episode.txt` of the working directory, whose content is exactly the
two lines `file 'prefix.episode.mkv'` and `file 'video.episode.mkv'`, in this
order, separated by a carriage return and a line feed.  The write is made: it
is in the log whenever the fine cut has succeeded, in every run in which no
call reported an error and no probe answered with a text the program cannot
use, and in every run that returns nil. -/
theorem trimMKV_manifest {σ : Type} (sys : Sys σ) (adLength estKeyFrame : Int)
    (engineDir tempDir : String) (s : σ) :
    (∀ path data perm err,
        Event.writeFile path data perm err
          ∈ (trimMKV sys adLength estKeyFrame engineDir tempDir (World.init s)).2.log →
        path = tempDir ++ "\\" ++ "list.episode.txt"
          ∧ data = "file 'prefix.episode.mkv'" ++ "\r\n" ++ "file 'video.episode.mkv'"
          ∧ (crlfLines data.data).map String.mk
              = ["file 'prefix.episode.mkv'", "file 'video.episode.mkv'"])
      ∧ (∀ prog args dir fine,
          Event.run prog args dir (.ok fine)
            ∈ (trimMKV sys adLength estKeyFrame engineDir tempDir (World.init s)).2.log →
          args.getLast? = some "prefix.episode.mkv" →
          ∃ err,
            Event.writeFile (tempDir ++ "\\" ++ "list.episode.txt")
                "file 'prefix.episode.mkv'\r\nfile 'video.episode.mkv'" 420 err
              ∈ (trimMKV sys adLength estKeyFrame engineDir tempDir (World.init s)).2.log)
      ∧ ((∃ ev ∈ (trimMKV sys adLength estKeyFrame engineDir tempDir (World.init s)).2.log,
              ev.failed = true)
          ∨ (∃ prog file dir out e,
              durationProbe prog file dir (.ok out)
                ∈ (trimMKV sys adLength estKeyFrame engineDir tempDir (World.init s)).2.log
              ∧ strconvParseFloat (stringsReplace out) = .error e)
          ∨ (∃ prog file dir out piece e,
              frameRateProbe prog file dir (.ok out)
                ∈ (trimMKV sys adLength estKeyFrame engineDir tempDir (World.init s)).2.log
              ∧ ((stringsSplit (stringsReplace out))[0]? = some piece
                  ∨ (stringsSplit (stringsReplace out))[1]? = some piece)
              ∧ strconvParseFloat piece = .error e)
          ∨ (∃ prog file dir out,
              frameRateProbe prog file dir (.ok out)
                ∈ (trimMKV sys adLength estKeyFrame engineDir tempDir (World.init s)).2.log
              ∧ (stringsSplit (stringsReplace out))[1]? = none)
          ∨ Event.writeFile (tempDir ++ "\\" ++ "list.episode.txt")
                "file 'prefix.episode.mkv'\r\nfile 'video.episode.mkv'" 420 none
              ∈ (trimMKV sys adLength estKeyFrame engineDir tempDir (World.init s)).2.log)
      ∧ ((trimMKV sys adLength estKeyFrame engineDir tempDir (World.init s)).1 = .ok () →
          Event.writeFile (tempDir ++ "\\" ++ "list.episode.txt")
              "file 'prefix.episode.mkv'\r\nfile 'video.episode.mkv'" 420 none
            ∈ (trimMKV sys adLength estKeyFrame engineDir tempDir (World.init s)).2.log) := by
  have ht := trimMKV_run sys adLength estKeyFrame engineDir tempDir s
  obtain ⟨h1, h2⟩ := trace_writes ht
  refine ⟨?_, ?_, ?_, h2⟩
  · intro path data perm err hmem
    have := h1 path data perm err hmem
    simp only [manifestWrite, Event.writeFile.injEq] at this
    obtain ⟨rfl, rfl, -, -⟩ := this
    exact ⟨rfl, by decide, by decide⟩
  · intro prog args dir fine hmem hlast
    exact trace_fine_then_write ht prog args dir fine hmem hlast
  · generalize (trimMKV sys adLength estKeyFrame engineDir tempDir (World.init s)).1 = r
      at ht h2
    generalize (trimMKV sys adLength estKeyFrame engineDir tempDir (World.init s)).2.log = l
      at ht h2
    cases r with
    | ok u => exact Or.inr (Or.inr (Or.inr (Or.inr (h2 rfl))))
    | error err =>
        rcases trace_error_cause ht with h | h | h
        · exact Or.inl h
        · exact Or.inr (Or.inl h)
        · exact Or.inr (Or.inr (Or.inl h))
    | panic msg =>
        obtain ⟨prog, out, num, numerator, -, -, -, hnone, -, hmem, -⟩ := trace_panic_cause ht
        exact Or.inr (Or.inr (Or.inr (Or.inl ⟨prog, "video.episode.mkv", tempDir, out, hmem,
          hnone⟩)))

set_option maxRecDepth 100000 in
/-- C6, at a concrete input: with probes answering 60 s, 48 s and `30/1` every
step succeeds, `trimMKV` returns nil and the manifest has been written. -/
theorem trimMKV_manifest_witness :
    (trimMKV (fileSys (scriptedTool "60.000000\r\n" "48.000000\r\n" "30/1\r\n")) 10000 12000
        "engine" "temp" (World.init freshFiles)).1 = .ok ()
      ∧ Event.writeFile ("temp" ++ "\\" ++ "list.episode.txt")
            "file 'prefix.episode.mkv'\r\nfile 'video.episode.mkv'" 420 none
          ∈ (trimMKV (fileSys (scriptedTool "60.000000\r\n" "48.000000\r\n" "30/1\r\n"))
              10000 12000 "engine" "temp" (World.init freshFiles)).2.log :=
  ⟨by decide,
   (trimMKV_manifest (fileSys (scriptedTool "60.000000\r\n" "48.000000\r\n" "30/1\r\n"))
      10000 12000 "engine" "temp" freshFiles).2.2.2 (by decide)⟩

set_option maxRecDepth 100000 in
/-- C2 fails as stated: with `adLength = 10000` and probes answering 60 s and
55 s the gap is `(60000 - 55000) - 10000 = -5000`, yet `trimMKV` returns nil,
having run the fine cut with the negative duration `-t -5.000`. -/
theorem trimMKV_negative_gap_counterexample :
    (60000 : Int) ≥ 55000 ∧ ((60000 : Int) - 55000) - 10000 < 0
      ∧ (trimMKV (fileSys (scriptedTool "60.000000\r\n" "55.000000\r\n" "30/1\r\n")) 10000 12000
          "engine" "temp" (World.init freshFiles)).1 = .ok ()
      ∧ (trimMKV (fileSys (scriptedTool "60.000000\r\n" "55.000000\r\n" "30/1\r\n")) 10000 12000
            "engine" "temp" (World.init freshFiles)).2.log.filter Event.isRun
        = [durationProbe "C:\\anirip\\engine\\ffprobe.exe" "untrimmed.episode.mkv" "temp"
             (.ok "60.000000\r\n"),
           Event.run "C:\\anirip\\engine\\ffmpeg.exe"
             ["-ss", "12.000", "-i", "untrimmed.episode.mkv", "-c", "copy",
              "-avoid_negative_ts", "1", "-y", "video.episode.mkv"] "temp" (.ok ""),
           durationProbe "C:\\anirip\\engine\\ffprobe.exe" "video.episode.mkv" "temp"
             (.ok "55.000000\r\n"),
           frameRateProbe "C:\\anirip\\engine\\ffprobe.exe" "video.episode.mkv" "temp"
             (.ok "30/1\r\n"),
           Event.run "C:\\anirip\\engine\\ffmpeg.exe"
             ["-ss", "10.000", "-i", "untrimmed.episode.mkv",
              "-t", "-5.000", "-crf", "5",
              "-vsync", "1", "-r", "30.00000000", "-c:a", "aac", "-y", "prefix.episode.mkv"]
             "temp" (.ok ""),
           Event.run "C:\\anirip\\engine\\ffmpeg.exe"
             ["-f", "concat", "-i", "list.episode.txt", "-c", "copy", "-y", "episode.mkv"]
             "temp" (.ok "")] := by
  refine ⟨by decide, by decide, by decide, by decide⟩

/-- C2 (amended): `trimMKV` does not look at the sign of the gap.  When it
returns nil, the two duration probes were answered with texts that parse to
`len1` and `len2` seconds and, for a negative gap
`(untrimmedLength - videoLength) - adLength` of at most `2^43 * 1000`
milliseconds in magnitude, the log holds the fine cut with the negative
duration `-t -|gap|/1000`.  When it returns an error, a call reported an error
or a probe answered with a text that `strconv` rejects: no error comes from the
gap. -/
theorem trimMKV_negative_gap_unchecked {σ : Type} (sys : Sys σ) (adLength estKeyFrame : Int)
    (engineDir tempDir : String) (s : σ) :
    ((trimMKV sys adLength estKeyFrame engineDir tempDir (World.init s)).1 = .ok () →
      ∃ (ffprobe ffmpeg out1 out2 fine : String) (len1 len2 frameRate : Float64),
        durationProbe ffprobe "untrimmed.episode.mkv" tempDir (.ok out1)
            ∈ (trimMKV sys adLength estKeyFrame engineDir tempDir (World.init s)).2.log
          ∧ strconvParseFloat (stringsReplace out1) = .ok len1
          ∧ durationProbe ffprobe "video.episode.mkv" tempDir (.ok out2)
            ∈ (trimMKV sys adLength estKeyFrame engineDir tempDir (World.init s)).2.log
          ∧ strconvParseFloat (stringsReplace out2) = .ok len2
          ∧ (Float64.toInt (Float64.mul len1 (Float64.ofInt 1000))
                - Float64.toInt (Float64.mul len2 (Float64.ofInt 1000)) - adLength < 0 →
             (Float64.toInt (Float64.mul len1 (Float64.ofInt 1000))
                - Float64.toInt (Float64.mul len2 (Float64.ofInt 1000)) - adLength).natAbs
                ≤ 2 ^ 43 * 1000 →
             Event.run ffmpeg
                ["-ss", strconvFormatFloat
                    (Float64.div (Float64.ofInt adLength) (Float64.ofInt 1000)) 3,
                 "-i", "untrimmed.episode.mkv",
                 "-t", "-" ++ Nat.repr
                      ((Float64.toInt (Float64.mul len1 (Float64.ofInt 1000))
                        - Float64.toInt (Float64.mul len2 (Float64.ofInt 1000))
                        - adLength).natAbs / 1000)
                    ++ "." ++ padZeros 3 (Nat.repr
                      ((Float64.toInt (Float64.mul len1 (Float64.ofInt 1000))
                        - Float64.toInt (Float64.mul len2 (Float64.ofInt 1000))
                        - adLength).natAbs % 1000)),
                 "-crf", "5",
                 "-vsync", "1",
                 "-r", strconvFormatFloat frameRate 8,
                 "-c:a", "aac", "-y",
                 "prefix.episode.mkv"] tempDir (.ok fine)
               ∈ (trimMKV sys adLength estKeyFrame engineDir tempDir (World.init s)).2.log))
      ∧ (∀ err,
          (trimMKV sys adLength estKeyFrame engineDir tempDir (World.init s)).1 = .error err →
          (∃ ev ∈ (trimMKV sys adLength estKeyFrame engineDir tempDir (World.init s)).2.log,
              ev.failed = true)
            ∨ (∃ prog file dir out e,
                durationProbe prog file dir (.ok out)
                  ∈ (trimMKV sys adLength estKeyFrame engineDir tempDir (World.init s)).2.log
                ∧ strconvParseFloat (stringsReplace out) = .error e)
            ∨ (∃ prog file dir out piece e,
                frameRateProbe prog file dir (.ok out)
                  ∈ (trimMKV sys adLength estKeyFrame engineDir tempDir (World.init s)).2.log
                ∧ ((stringsSplit (stringsReplace out))[0]? = some piece
                    ∨ (stringsSplit (stringsReplace out))[1]? = some piece)
                ∧ strconvParseFloat piece = .error e)) := by
  have ht := trimMKV_run sys adLength estKeyFrame engineDir tempDir s
  generalize (trimMKV sys adLength estKeyFrame engineDir tempDir (World.init s)).1 = r at ht ⊢
  generalize (trimMKV sys adLength estKeyFrame engineDir tempDir (World.init s)).2.log = l
    at ht ⊢
  constructor
  · intro hr
    subst hr
    obtain ⟨ffprobe, ffmpeg, out1, rough, out2, out3, num, den, fine, merged, len1, len2,
      numerator, denominator, hp1, hp2, -, -, -, -, rfl⟩ := trace_success ht
    refine ⟨ffprobe, ffmpeg, out1, out2, fine, len1, len2, Float64.div numerator denominator,
      by simp, hp1, by simp, hp2, ?_⟩
    intro hneg hgap
    have hfmt := format_millis _ hgap
    have hw := wrapInt_gap _ _ _ hgap
    have hsign : millisToSeconds
        (Float64.toInt (Float64.mul len1 (Float64.ofInt 1000))
          - Float64.toInt (Float64.mul len2 (Float64.ofInt 1000)) - adLength)
        = "-" ++ Nat.repr
              ((Float64.toInt (Float64.mul len1 (Float64.ofInt 1000))
                - Float64.toInt (Float64.mul len2 (Float64.ofInt 1000))
                - adLength).natAbs / 1000)
            ++ "." ++ padZeros 3 (Nat.repr
              ((Float64.toInt (Float64.mul len1 (Float64.ofInt 1000))
                - Float64.toInt (Float64.mul len2 (Float64.ofInt 1000))
                - adLength).natAbs % 1000)) := by
      simp [millisToSeconds, hneg]
    have heq : fineCut ffmpeg adLength (Float64.toInt (Float64.mul len1 (Float64.ofInt 1000)))
        (Float64.toInt (Float64.mul len2 (Float64.ofInt 1000)))
        (Float64.div numerator denominator) tempDir (.ok fine)
        = Event.run ffmpeg
            ["-ss", strconvFormatFloat
                (Float64.div (Float64.ofInt adLength) (Float64.ofInt 1000)) 3,
             "-i", "untrimmed.episode.mkv",
             "-t", "-" ++ Nat.repr
                  ((Float64.toInt (Float64.mul len1 (Float64.ofInt 1000))
                    - Float64.toInt (Float64.mul len2 (Float64.ofInt 1000))
                    - adLength).natAbs / 1000)
                ++ "." ++ padZeros 3 (Nat.repr
                  ((Float64.toInt (Float64.mul len1 (Float64.ofInt 1000))
                    - Float64.toInt (Float64.mul len2 (Float64.ofInt 1000))
                    - adLength).natAbs % 1000)),
             "-crf", "5",
             "-vsync", "1",
             "-r", strconvFormatFloat (Float64.div numerator denominator) 8,
             "-c:a", "aac", "-y",
             "prefix.episode.mkv"] tempDir (.ok fine) := by
      unfold fineCut
      rw [hw, hfmt, hsign]
    rw [heq]
    simp
  · intro err hr
    subst hr
    exact trace_error_cause ht

/-! ## The claim on `mergeSubtitles` -/

/-- C9: the remux command of `mergeSubtitles`.  Every program `mergeSubtitles`
starts is ffmpeg, run in the working directory, with exactly these arguments.
For an empty `subtitleLang`: the one input `unmerged.episode.mkv`, video and
audio copied, audio stream 0 tagged `language=audioLang`, and nothing about
subtitles.  Otherwise: the second input `subtitles.episode.ass` in format
`ass`, and in addition subtitle stream 0 tagged `language=subtitleLang` and
marked `default`.  In both cases the output, the last argument, is
`episode.mkv`.  At most one program is started, and one is started whenever
`mergeSubtitles` returns nil.  The command is issued: once the staging rename
and the lookup of ffmpeg have succeeded, the programs started are that one
command, and in every run the log holds it unless the rename or the lookup
reported an error. -/
theorem mergeSubtitles_command {σ : Type} (sys : Sys σ)
    (audioLang subtitleLang engineDir tempDir : String) (s : σ) :
    (∀ prog args dir res,
        Event.run prog args dir res
          ∈ (mergeSubtitles sys audioLang subtitleLang engineDir tempDir (World.init s)).2.log →
        sys.abs (engineDir ++ "\\ffmpeg.exe") = .ok prog ∧ dir = tempDir
          ∧ (subtitleLang = "" →
              args = ["-i", "unmerged.episode.mkv",
                      "-c:v", "copy",
                      "-c:a", "copy",
                      "-metadata:s:a:0", "language=" ++ audioLang,
                      "-y", "episode.mkv"])
          ∧ (subtitleLang ≠ "" →
              args = ["-i", "unmerged.episode.mkv",
                      "-f", "ass",
                      "-i", "subtitles.episode.ass",
                      "-c:v", "copy",
                      "-c:a", "copy",
                      "-metadata:s:a:0", "language=" ++ audioLang,
                      "-metadata:s:s:0", "language=" ++ subtitleLang,
                      "-disposition:s:0", "default",
                      "-y", "episode.mkv"])
          ∧ args.getLast? = some "episode.mkv")
      ∧ ((mergeSubtitles sys audioLang subtitleLang engineDir tempDir (World.init s)).2.log.filter
            Event.isRun).length ≤ 1
      ∧ ((mergeSubtitles sys audioLang subtitleLang engineDir tempDir (World.init s)).1 = .ok () →
          ((mergeSubtitles sys audioLang subtitleLang engineDir tempDir (World.init s)).2.log.filter
            Event.isRun).length = 1)
      ∧ (∀ path,
          (sys.rename (tempDir ++ "\\episode.mkv") (tempDir ++ "\\unmerged.episode.mkv") 10
              (sys.remove (tempDir ++ "\\unmerged.episode.mkv") s)).1 = none →
          sys.abs (engineDir ++ "\\ffmpeg.exe") = .ok path →
          ∃ res,
            (subtitleLang = "" →
              (mergeSubtitles sys audioLang subtitleLang engineDir tempDir
                  (World.init s)).2.log.filter Event.isRun
                = [Event.run path
                    ["-i", "unmerged.episode.mkv",
                     "-c:v", "copy",
                     "-c:a", "copy",
                     "-metadata:s:a:0", "language=" ++ audioLang,
                     "-y", "episode.mkv"] tempDir res])
            ∧ (subtitleLang ≠ "" →
              (mergeSubtitles sys audioLang subtitleLang engineDir tempDir
                  (World.init s)).2.log.filter Event.isRun
                = [Event.run path
                    ["-i", "unmerged.episode.mkv",
                     "-f", "ass",
                     "-i", "subtitles.episode.ass",
                     "-c:v", "copy",
                     "-c:a", "copy",
                     "-metadata:s:a:0", "language=" ++ audioLang,
                     "-metadata:s:s:0", "language=" ++ subtitleLang,
                     "-disposition:s:0", "default",
                     "-y", "episode.mkv"] tempDir res]))
      ∧ ((∃ err,
            Event.rename (tempDir ++ "\\episode.mkv") (tempDir ++ "\\unmerged.episode.mkv") 10
                (some err)
              ∈ (mergeSubtitles sys audioLang subtitleLang engineDir tempDir (World.init s)).2.log)
          ∨ (∃ err,
              Event.abs (engineDir ++ "\\ffmpeg.exe") (.error err)
                ∈ (mergeSubtitles sys audioLang subtitleLang engineDir tempDir
                    (World.init s)).2.log)
          ∨ (∃ prog args res,
              Event.run prog args tempDir res
                ∈ (mergeSubtitles sys audioLang subtitleLang engineDir tempDir
                    (World.init s)).2.log)) := by
  unfold mergeSubtitles aniripRename filepathAbs cmdOutput osRemove World.init
  dsimp only
  cases hren : (sys.rename (tempDir ++ "\\episode.mkv") (tempDir ++ "\\unmerged.episode.mkv") 10
      (sys.remove (tempDir ++ "\\unmerged.episode.mkv") s)).1 with
  | some err => simp [Event.isRun]
  | none =>
    dsimp only
    cases habs : sys.abs (engineDir ++ "\\ffmpeg.exe") with
    | error err => simp [Event.isRun]
    | ok path =>
      dsimp only
      by_cases hsub : subtitleLang = ""
      · simp only [hsub, if_true]
        generalize sys.run path _ tempDir _ = rr
        obtain ⟨res, s1⟩ := rr
        cases res <;> simp [Event.isRun] <;>
          (intro prog args dir res h1 h2 h3 _; subst h1 h2 h3; simp)
      · simp only [hsub, if_false]
        generalize sys.run path _ tempDir _ = rr
        obtain ⟨res, s1⟩ := rr
        cases res <;> simp [Event.isRun, hsub] <;>
          (intro prog args dir res h1 h2 h3 _; subst h1 h2 h3; simp)

set_option maxRecDepth 100000 in
/-- C9, at concrete inputs: with the downloaded episode in place,
`mergeSubtitles` returns nil after starting exactly one program, the remux
with the subtitle input for `subtitleLang = "eng"` and the remux without it for
the empty `subtitleLang`. -/
theorem mergeSubtitles_command_witness :
    (mergeSubtitles (fileSys (scriptedTool "" "" "")) "jpn" "eng" "engine" "temp"
        (World.init freshFiles)).1 = .ok ()
      ∧ ((mergeSubtitles (fileSys (scriptedTool "" "" "")) "jpn" "eng" "engine" "temp"
          (World.init freshFiles)).2.log.filter Event.isRun).length = 1
      ∧ (mergeSubtitles (fileSys (scriptedTool "" "" "")) "jpn" "eng" "engine" "temp"
          (World.init freshFiles)).2.log.filter Event.isRun
        = [Event.run "C:\\anirip\\engine\\ffmpeg.exe"
            ["-i", "unmerged.episode.mkv",
             "-f", "ass",
             "-i", "subtitles.episode.ass",
             "-c:v", "copy",
             "-c:a", "copy",
             "-metadata:s:a:0", "language=jpn",
             "-metadata:s:s:0", "language=eng",
             "-disposition:s:0", "default",
             "-y", "episode.mkv"] "temp" (.ok "")]
      ∧ (mergeSubtitles (fileSys (scriptedTool "" "" "")) "jpn" "" "engine" "temp"
          (World.init freshFiles)).2.log.filter Event.isRun
        = [Event.run "C:\\anirip\\engine\\ffmpeg.exe"
            ["-i", "unmerged.episode.mkv",
             "-c:v", "copy",
             "-c:a", "copy",
             "-metadata:s:a:0", "language=jpn",
             "-y", "episode.mkv"] "temp" (.ok "")] :=
  ⟨by decide,
   (mergeSubtitles_command (fileSys (scriptedTool "" "" "")) "jpn" "eng" "engine" "temp"
      freshFiles).2.2.1 (by decide),
   by decide, by decide⟩

/-! ## The claims on `getVideoFrameRate` -/

/-- What `getVideoFrameRate` returns once ffprobe has answered `output`. -/
theorem getVideoFrameRate_of_output {σ : Type} (sys : Sys σ)
    (fileName engineDir tempDir : String) (w : World σ) (ffprobe output : String)
    (habs : sys.abs (engineDir ++ "\\ffprobe.exe") = .ok ffprobe)
    (hrun : (sys.run ffprobe
        ["-v", "error", "-select_streams", "v:0", "-show_entries", "stream=avg_frame_rate",
         "-of", "default=noprint_wrappers=1:nokey=1", fileName] tempDir w.os).1 = .ok output) :
    (getVideoFrameRate sys fileName engineDir tempDir w).1
      = match (stringsSplit (stringsReplace output))[0]? with
        | none => .panic "index out of range [0]"
        | some num =>
            match strconvParseFloat num with
            | .error err =>
                .error (.anirip
                  ("There was an error parsing the numerator of our framerate for " ++ fileName)
                  (.num err))
            | .ok numerator =>
                match (stringsSplit (stringsReplace output))[1]? with
                | none => .panic "index out of range [1]"
                | some den =>
                    match strconvParseFloat den with
                    | .error err =>
                        .error (.anirip
                          ("There was an error parsing the denominator of our framerate for "
                            ++ fileName) (.num err))
                    | .ok denominator => .ok (Float64.div numerator denominator) := by
  unfold getVideoFrameRate filepathAbs cmdOutput
  rw [habs]
  dsimp only
  rw [hrun]
  dsimp only
  repeat' split
  all_goals simp_all

theorem div_zero_not_finite (n d : Float64) (hz : d.isZero = true) :
    (Float64.div n d).isFinite = false := by
  cases n with
  | nan => cases d <;> simp [Float64.div, Float64.isFinite]
  | inf n1 => cases d <;> simp_all [Float64.div, Float64.isFinite, Float64.isZero]
  | finite n1 m1 e1 =>
      cases d with
      | nan => simp [Float64.div, Float64.isFinite]
      | inf n2 => simp [Float64.isZero] at hz
      | finite n2 m2 e2 =>
          simp only [Float64.isZero, beq_iff_eq] at hz
          subst hz
          by_cases h1 : m1 = 0 <;> simp [Float64.div, Float64.isFinite, h1]

set_option maxRecDepth 100000 in
/-- C4: when ffprobe answers `N/D`, with or without a final line break, where
`N` and `D` contain neither a slash nor a carriage return: if `strconv` reads
`N` as `n` and `D` as `d`, `getVideoFrameRate` returns the `float64` quotient
`n / d` and no error; if `strconv` rejects `N`, or rejects `D`, it returns an
error.  `30/1` gives 30.0 and `24000/1001` gives 23.976023976023978, the
`float64` nearest to the fraction. -/
theorem getVideoFrameRate_fraction {σ : Type} (sys : Sys σ)
    (fileName engineDir tempDir : String) (w : World σ) (ffprobe output N D : String)
    (habs : sys.abs (engineDir ++ "\\ffprobe.exe") = .ok ffprobe)
    (hrun : (sys.run ffprobe
        ["-v", "error", "-select_streams", "v:0", "-show_entries", "stream=avg_frame_rate",
         "-of", "default=noprint_wrappers=1:nokey=1", fileName] tempDir w.os).1 = .ok output)
    (hout : output = N ++ "/" ++ D ∨ output = N ++ "/" ++ D ++ "\r\n")
    (hN1 : '/' ∉ N.data) (hN2 : '\r' ∉ N.data) (hD1 : '/' ∉ D.data) (hD2 : '\r' ∉ D.data) :
    (∀ n d, strconvParseFloat N = .ok n → strconvParseFloat D = .ok d →
        (getVideoFrameRate sys fileName engineDir tempDir w).1 = .ok (Float64.div n d))
      ∧ (∀ e, strconvParseFloat N = .error e →
          ∃ err, (getVideoFrameRate sys fileName engineDir tempDir w).1 = .error err)
      ∧ (∀ e, strconvParseFloat D = .error e →
          ∃ err, (getVideoFrameRate sys fileName engineDir tempDir w).1 = .error err)
      ∧ (N = "30" → D = "1" →
          (getVideoFrameRate sys fileName engineDir tempDir w).1 = .ok (Float64.ofInt 30)
            ∧ strconvFormatFloat (Float64.ofInt 30) 1 = "30.0")
      ∧ (N = "24000" → D = "1001" →
          (getVideoFrameRate sys fileName engineDir tempDir w).1
              = .ok (Float64.round false 24000 1001)
            ∧ strconvFormatFloat (Float64.round false 24000 1001) 15
              = "23.976023976023978") := by
  have hres := getVideoFrameRate_of_output sys fileName engineDir tempDir w ffprobe output
    habs hrun
  rw [split_fraction N D output hout hN1 hN2 hD1 hD2] at hres
  simp only [List.getElem?_cons_zero, List.getElem?_cons_succ] at hres
  have main : ∀ n d, strconvParseFloat N = .ok n → strconvParseFloat D = .ok d →
      (getVideoFrameRate sys fileName engineDir tempDir w).1 = .ok (Float64.div n d) := by
    intro n d hn hd
    rw [hres, hn, hd]
  refine ⟨main, ?_, ?_, ?_, ?_⟩
  · intro e he
    rw [hres, he]
    exact ⟨_, rfl⟩
  · intro e he
    rw [hres, he]
    cases strconvParseFloat N <;> exact ⟨_, rfl⟩
  · rintro rfl rfl
    have h := main (Float64.ofInt 30) (Float64.ofInt 1) (by decide) (by decide)
    rw [h]
    exact ⟨by decide, by decide⟩
  · rintro rfl rfl
    have h := main (Float64.ofInt 24000) (Float64.ofInt 1001) (by decide) (by decide)
    rw [h]
    exact ⟨by decide, by decide⟩

set_option maxRecDepth 100000 in
/-- C4, at a concrete input: ffprobe answers `24000/1001` and a line break. -/
theorem getVideoFrameRate_fraction_witness :
    (getVideoFrameRate (fileSys (scriptedTool "" "" "24000/1001\r\n")) "video.episode.mkv"
        "engine" "temp" (World.init freshFiles)).1
      = .ok (Float64.div (Float64.ofInt 24000) (Float64.ofInt 1001)) :=
  (getVideoFrameRate_fraction (fileSys (scriptedTool "" "" "24000/1001\r\n"))
    "video.episode.mkv" "engine" "temp" (World.init freshFiles)
    "C:\\anirip\\engine\\ffprobe.exe" "24000/1001\r\n" "24000" "1001"
    (by decide) (by decide) (Or.inr (by decide)) (by decide) (by decide) (by decide)
    (by decide)).1 _ _ (by decide) (by decide)

set_option maxRecDepth 100000 in
/-- C10: when ffprobe answers `N/D` where `strconv` reads `N` as `n` and `D` as
a zero `d` (`+0` or `-0`), `getVideoFrameRate` returns the quotient `n / d` with
a nil error, and that quotient is an infinity or NaN: `0/0` gives NaN and
`30/0` gives `+Inf`. -/
theorem getVideoFrameRate_zero_denominator {σ : Type} (sys : Sys σ)
    (fileName engineDir tempDir : String) (w : World σ) (ffprobe output N D : String)
    (n d : Float64)
    (habs : sys.abs (engineDir ++ "\\ffprobe.exe") = .ok ffprobe)
    (hrun : (sys.run ffprobe
        ["-v", "error", "-select_streams", "v:0", "-show_entries", "stream=avg_frame_rate",
         "-of", "default=noprint_wrappers=1:nokey=1", fileName] tempDir w.os).1 = .ok output)
    (hout : output = N ++ "/" ++ D ∨ output = N ++ "/" ++ D ++ "\r\n")
    (hN1 : '/' ∉ N.data) (hN2 : '\r' ∉ N.data) (hD1 : '/' ∉ D.data) (hD2 : '\r' ∉ D.data)
    (hn : strconvParseFloat N = .ok n) (hd : strconvParseFloat D = .ok d)
    (hz : d.isZero = true) :
    (getVideoFrameRate sys fileName engineDir tempDir w).1 = .ok (Float64.div n d)
      ∧ (Float64.div n d).isFinite = false
      ∧ (N = "0" → D = "0" → Float64.div n d = .nan)
      ∧ (N = "30" → D = "0" → Float64.div n d = .inf false) := by
  have hres := getVideoFrameRate_of_output sys fileName engineDir tempDir w ffprobe output
    habs hrun
  rw [split_fraction N D output hout hN1 hN2 hD1 hD2] at hres
  simp only [List.getElem?_cons_zero, List.getElem?_cons_succ] at hres
  rw [hn, hd] at hres
  refine ⟨hres, div_zero_not_finite n d hz, ?_, ?_⟩
  · rintro rfl rfl
    have h1 : strconvParseFloat "0" = .ok (Float64.ofInt 0) := by decide
    rw [h1] at hn hd
    injection hn with hn
    injection hd with hd
    subst hn hd
    decide
  · rintro rfl rfl
    have h1 : strconvParseFloat "30" = .ok (Float64.ofInt 30) := by decide
    have h2 : strconvParseFloat "0" = .ok (Float64.ofInt 0) := by decide
    rw [h1] at hn
    rw [h2] at hd
    injection hn with hn
    injection hd with hd
    subst hn hd
    decide

set_option maxRecDepth 100000 in
/-- C10, at a concrete input: ffprobe answers `0/0` and a line break. -/
theorem getVideoFrameRate_zero_denominator_witness :
    (getVideoFrameRate (fileSys (scriptedTool "" "" "0/0\r\n")) "video.episode.mkv"
        "engine" "temp" (World.init freshFiles)).1 = .ok .nan :=
  (getVideoFrameRate_zero_denominator (fileSys (scriptedTool "" "" "0/0\r\n"))
    "video.episode.mkv" "engine" "temp" (World.init freshFiles)
    "C:\\anirip\\engine\\ffprobe.exe" "0/0\r\n" "0" "0" (Float64.ofInt 0) (Float64.ofInt 0)
    (by decide) (by decide) (Or.inr (by decide)) (by decide) (by decide) (by decide)
    (by decide) (by decide) (by decide) (by decide)).1

set_option maxRecDepth 100000 in
/-- C5 fails on the code: when ffprobe answers `30` (no slash),
`getVideoFrameRate` reads the numerator and then panics on `frameRateArray[1]`,
an index out of range; it returns neither a rate nor an error, and `trimMKV`
panics with it.  An empty answer gives an error that names the file. -/
theorem getVideoFrameRate_panics_without_slash :
    (getVideoFrameRate (fileSys (scriptedTool "" "" "30")) "video.episode.mkv"
        "engine" "temp" (World.init freshFiles)).1 = .panic "index out of range [1]"
      ∧ (getVideoFrameRate (fileSys (scriptedTool "" "" "30\r\n")) "video.episode.mkv"
        "engine" "temp" (World.init freshFiles)).1 = .panic "index out of range [1]"
      ∧ (trimMKV (fileSys (scriptedTool "60.000000\r\n" "48.000000\r\n" "30\r\n")) 10000 12000
          "engine" "temp" (World.init freshFiles)).1 = .panic "index out of range [1]"
      ∧ (getVideoFrameRate (fileSys (scriptedTool "" "" "")) "video.episode.mkv"
        "engine" "temp" (World.init freshFiles)).1
          = .error (.anirip
              "There was an error parsing the numerator of our framerate for video.episode.mkv"
              (.num .invalid)) := by
  refine ⟨by decide, by decide, by decide, by decide⟩

/-! ## Restarting `trimMKV` -/

set_option maxRecDepth 100000 in
/-- C7 fails as stated: an uninterrupted run from the original state returns
nil and produces `episode.mkv`; run again from the state an interruption after
the rough cut leaves (`untrimmed.episode.mkv` and a partial `video.episode.mkv`,
no `episode.mkv`), `trimMKV` deletes the staged `untrimmed.episode.mkv`, fails
to rename the absent `episode.mkv`, returns that error and produces no
`episode.mkv`. -/
theorem trimMKV_restart_counterexample :
    (trimMKV (fileSys (scriptedTool "60.000000\r\n" "48.000000\r\n" "30/1\r\n")) 10000 12000
        "engine" "temp" (World.init freshFiles)).1 = .ok ()
      ∧ (trimMKV (fileSys (scriptedTool "60.000000\r\n" "48.000000\r\n" "30/1\r\n")) 10000 12000
          "engine" "temp" (World.init freshFiles)).2.os "temp\\episode.mkv"
        = some "-f concat -i list.episode.txt -c copy -y episode.mkv"
      ∧ interruptedFiles "temp\\untrimmed.episode.mkv" = some "downloaded episode"
      ∧ interruptedFiles "temp\\video.episode.mkv" = some "partial clip"
      ∧ interruptedFiles "temp\\episode.mkv" = none
      ∧ (trimMKV (fileSys (scriptedTool "60.000000\r\n" "48.000000\r\n" "30/1\r\n")) 10000 12000
          "engine" "temp" (World.init interruptedFiles)).1
        = .error (.anirip "RenameError" (.os "rename temp\\episode.mkv: no such file"))
      ∧ (trimMKV (fileSys (scriptedTool "60.000000\r\n" "48.000000\r\n" "30/1\r\n")) 10000 12000
          "engine" "temp" (World.init interruptedFiles)).2.os "temp\\episode.mkv" = none
      ∧ (trimMKV (fileSys (scriptedTool "60.000000\r\n" "48.000000\r\n" "30/1\r\n")) 10000 12000
          "engine" "temp" (World.init interruptedFiles)).2.os "temp\\untrimmed.episode.mkv"
        = none := by
  refine ⟨by decide, by decide, by decide, by decide, by decide, by decide, by decide, by decide⟩

theorem removals_withoutStale (tool : String → List String → String → Files →
      Except GoError String × Files) (tempDir : String) (fs : Files) :
    osRemove (fileSys tool) (tempDir ++ "\\" ++ "list.episode.txt")
        (osRemove (fileSys tool) (tempDir ++ "\\" ++ "video.episode.mkv")
          (osRemove (fileSys tool) (tempDir ++ "\\" ++ "prefix.episode.mkv")
            (osRemove (fileSys tool) (tempDir ++ "\\" ++ "untrimmed.episode.mkv")
              (World.init fs))))
      = { os := withoutStale tempDir fs, log := staleRemovals tempDir } := by
  simp only [osRemove, fileSys, World.init, staleRemovals, List.nil_append, List.cons_append,
    World.mk.injEq, and_true]
  rfl

theorem withoutStale_idem (tempDir : String) (fs : Files) :
    withoutStale tempDir (withoutStale tempDir fs) = withoutStale tempDir fs := by
  funext q
  simp only [withoutStale]
  split_ifs <;> rfl

/-- C7 (amended): on a file system where renaming an absent file fails, a run
of `trimMKV` from any state without `episode.mkv` (the state an interrupted run
leaves is one) returns the rename error: the four stale intermediates are
removed, the staging rename is the last call, no program is started, and
afterwards neither `episode.mkv` nor `untrimmed.episode.mkv` exists.  The stale
intermediates themselves never cause an error: from any state, `trimMKV` does
exactly what it does from the same state with the four intermediates removed. -/
theorem trimMKV_restart (tool : String → List String → String → Files →
      Except GoError String × Files) (adLength estKeyFrame : Int)
    (engineDir tempDir : String) (fs : Files) :
    (fs (tempDir ++ "\\episode.mkv") = none →
        (∃ err, (trimMKV (fileSys tool) adLength estKeyFrame engineDir tempDir
            (World.init fs)).1 = .error err
          ∧ (trimMKV (fileSys tool) adLength estKeyFrame engineDir tempDir
              (World.init fs)).2.log
            = staleRemovals tempDir ++ [stagingRename tempDir (some err)])
          ∧ (trimMKV (fileSys tool) adLength estKeyFrame engineDir tempDir
              (World.init fs)).2.os (tempDir ++ "\\episode.mkv") = none
          ∧ (trimMKV (fileSys tool) adLength estKeyFrame engineDir tempDir
              (World.init fs)).2.os (tempDir ++ "\\" ++ "untrimmed.episode.mkv") = none)
      ∧ trimMKV (fileSys tool) adLength estKeyFrame engineDir tempDir (World.init fs)
        = trimMKV (fileSys tool) adLength estKeyFrame engineDir tempDir
            (World.init (withoutStale tempDir fs)) := by
  constructor
  · intro habsent
    have hw : withoutStale tempDir fs (tempDir ++ "\\episode.mkv") = none := by
      simp only [withoutStale]
      split_ifs <;> first | rfl | exact habsent
    unfold trimMKV
    rw [removals_withoutStale]
    simp only [aniripRename, fileSys, hw]
    simp [stagingRename, withoutStale]
  · unfold trimMKV
    rw [removals_withoutStale, removals_withoutStale, withoutStale_idem]

/-! ## The rounding error of `Float64.round` -/

theorem two_zpow_split (E : Int) :
    (2 : ℚ) ^ E = (2 : ℚ) ^ E.toNat / (2 : ℚ) ^ (-E).toNat := by
  rcases le_total 0 E with h | h
  · have h1 : (-E).toNat = 0 := by omega
    have h2 : ((E.toNat : ℕ) : ℤ) = E := by omega
    rw [h1, pow_zero, div_one, ← zpow_natCast, h2]
  · have h1 : E.toNat = 0 := by omega
    have h2 : (((-E).toNat : ℕ) : ℤ) = -E := by omega
    rw [h1, pow_zero, one_div, ← zpow_natCast, h2, zpow_neg, inv_inv]

theorem scaledRound_near (num den : Nat) (E : Int) (hden : 0 < den) :
    |(scaledRound num den E : ℚ) * (2 : ℚ) ^ E - (num : ℚ) / den| ≤ (2 : ℚ) ^ E / 2 := by
  unfold scaledRound
  have hb : 0 < den * 2 ^ E.toNat := Nat.mul_pos hden (by positivity)
  obtain ⟨h1, h2⟩ := roundHalfEven_near (num * 2 ^ (-E).toNat) (den * 2 ^ E.toNat) hb
  generalize roundHalfEven (num * 2 ^ (-E).toNat) (den * 2 ^ E.toNat) = m at h1 h2
  have h1q : (2 : ℚ) * (m * (den * 2 ^ E.toNat)) ≤ 2 * (num * 2 ^ (-E).toNat) + den * 2 ^ E.toNat := by
    exact_mod_cast h1
  have h2q : (2 : ℚ) * (num * 2 ^ (-E).toNat) ≤ 2 * (m * (den * 2 ^ E.toNat)) + den * 2 ^ E.toNat := by
    exact_mod_cast h2
  rw [two_zpow_split E]
  have hdq : (0 : ℚ) < den := by exact_mod_cast hden
  have ha : (0 : ℚ) < 2 ^ (-E).toNat := by positivity
  have hbq : (0 : ℚ) < 2 ^ E.toNat := by positivity
  generalize (2 : ℚ) ^ (-E).toNat = A at *
  generalize (2 : ℚ) ^ E.toNat = B at *
  rw [abs_le]
  constructor
  · rw [neg_le_sub_iff_le_add, div_le_iff₀ hdq]
    have : (m : ℚ) * (B / A) * den + B / A / 2 * den = (2 * (m * (den * B)) + den * B) / (2 * A) := by
      field_simp; ring
    rw [add_mul, this, le_div_iff₀ (by positivity)]
    linarith
  · rw [sub_le_iff_le_add, ← sub_le_iff_le_add', le_div_iff₀ hdq]
    have : ((m : ℚ) * (B / A) - B / A / 2) * den = (2 * (m * (den * B)) - den * B) / (2 * A) := by
      field_simp; ring
    rw [this, div_le_iff₀ (by positivity)]
    linarith

/-- A positive rational below `2^K` rounds to a finite `float64` whose value
is within `2^(K-54)` of it. -/
theorem round_value (num den K : Nat) (hnum : 0 < num) (hden : 0 < den)
    (hK : (num : ℚ) / den < 2 ^ K) (hK' : K ≤ 1000) :
    ∃ m e, Float64.round false num den = .finite false m e
      ∧ |(m : ℚ) * (2 : ℚ) ^ e - (num : ℚ) / den| ≤ (2 : ℚ) ^ ((K : Int) - 54) := by
  have hdq : (0 : ℚ) < den := by exact_mod_cast hden
  have hKn : num < den * 2 ^ K := by
    rw [div_lt_iff₀ hdq] at hK
    have : (num : ℚ) < (den : ℚ) * 2 ^ K := by linarith
    exact_mod_cast this
  have hfl := floorLog2_lt num den K hKn
  have hnear := scaledRound_near num den (max (floorLog2 num den - 52) (-1074)) hden
  unfold Float64.round
  rw [if_neg (Nat.ne_of_gt hnum)]
  generalize hE : max (floorLog2 num den - 52) (-1074) = E at hnear ⊢
  have hE1 : E ≤ (K : Int) - 53 := by rw [← hE]; omega
  have hbound : (2 : ℚ) ^ E / 2 ≤ (2 : ℚ) ^ ((K : Int) - 54) := by
    have h1 : (2 : ℚ) ^ E / 2 = (2 : ℚ) ^ (E - 1) := by
      rw [zpow_sub₀ (by norm_num : (2 : ℚ) ≠ 0), zpow_one]
    rw [h1]
    exact zpow_le_zpow_right₀ (by norm_num) (by omega)
  by_cases hm : scaledRound num den E = 2 ^ 53
  · rw [if_pos hm, if_neg (by omega)]
    refine ⟨2 ^ 52, E + 1, rfl, ?_⟩
    have hv : ((2 ^ 52 : ℕ) : ℚ) * (2 : ℚ) ^ (E + 1) = ((2 ^ 53 : ℕ) : ℚ) * (2 : ℚ) ^ E := by
      rw [zpow_add₀ (by norm_num : (2 : ℚ) ≠ 0), zpow_one]
      push_cast
      ring
    rw [hv, ← hm]
    exact le_trans hnear hbound
  · rw [if_neg hm, if_neg (by omega)]
    exact ⟨_, E, rfl, le_trans hnear hbound⟩

/-! ## Reading a decimal number -/

theorem readDigits_append (ds rest : List Char) (hds : ∀ c ∈ ds, isDigit c = true)
    (hrest : ∀ c r, rest = c :: r → isDigit c = false) (acc n : Nat) :
    readDigits (ds ++ rest) acc n
      = (ds.foldl (fun a c => a * 10 + digitVal c) acc, n + ds.length, rest) := by
  induction ds generalizing acc n with
  | nil =>
      cases rest with
      | nil => simp [readDigits]
      | cons c r => simp [readDigits, hrest c r rfl]
  | cons d ds ih =>
      have hd : isDigit d = true := hds d (by simp)
      have hds' : ∀ c ∈ ds, isDigit c = true := fun c hc => hds c (by simp [hc])
      simp only [List.cons_append, readDigits, hd, if_true, List.foldl_cons, List.length_cons]
      rw [show ds.append rest = ds ++ rest from rfl, ih hds']
      simp only [Prod.mk.injEq, true_and, and_true]
      omega

theorem isDigit_toNat (c : Char) (h : isDigit c = true) : 48 ≤ c.toNat ∧ c.toNat ≤ 57 := by
  simp only [isDigit, Bool.and_eq_true, decide_eq_true_eq] at h
  exact h

theorem digit_ne (c d : Char) (h : isDigit c = true) (hd : d.toNat < 48 ∨ 57 < d.toNat) :
    c ≠ d := by
  rintro rfl
  have := isDigit_toNat c h
  omega

theorem digit_toLower (c : Char) (h : isDigit c = true) : c.toLower = c := by
  have := isDigit_toNat c h
  unfold Char.toLower
  simp only [ge_iff_le]
  rw [if_neg]
  intro hc
  omega

theorem parseSpecial_digit (c : Char) (cs : List Char) (h : isDigit c = true) :
    parseSpecial (c :: cs) = none := by
  have hl := digit_toLower c h
  have hn : c ≠ 'n' := digit_ne c 'n' h (by decide)
  have hi : c ≠ 'i' := digit_ne c 'i' h (by decide)
  have hp : c ≠ '+' := digit_ne c '+' h (by decide)
  have hm : c ≠ '-' := digit_ne c '-' h (by decide)
  have e1 : "nan".data = ['n', 'a', 'n'] := rfl
  have e2 : "inf".data = ['i', 'n', 'f'] := rfl
  have e3 : "+inf".data = ['+', 'i', 'n', 'f'] := rfl
  have e4 : "infinity".data = ['i', 'n', 'f', 'i', 'n', 'i', 't', 'y'] := rfl
  have e5 : "+infinity".data = ['+', 'i', 'n', 'f', 'i', 'n', 'i', 't', 'y'] := rfl
  have e6 : "-inf".data = ['-', 'i', 'n', 'f'] := rfl
  have e7 : "-infinity".data = ['-', 'i', 'n', 'f', 'i', 'n', 'i', 't', 'y'] := rfl
  unfold parseSpecial
  simp only [List.map_cons, hl, e1, e2, e3, e4, e5, e6, e7, List.cons.injEq, hn, hi, hp, hm,
    false_and, or_self, if_false]

/-- `strconv.ParseFloat` on `ip.fp`: the nearest `float64` to the number written. -/
theorem strconvParseFloat_decimal (ip fp : List Char) (hne : ip ≠ [])
    (hip : ∀ c ∈ ip, isDigit c = true) (hfp : ∀ c ∈ fp, isDigit c = true) :
    strconvParseFloat (String.mk (ip ++ '.' :: fp))
      = decimalToFloat false (digitsValue (ip ++ fp)) (-(fp.length : Int)) := by
  obtain ⟨c, cs, rfl⟩ : ∃ c cs, ip = c :: cs := by
    cases ip with
    | nil => exact absurd rfl hne
    | cons c cs => exact ⟨c, cs, rfl⟩
  have hc : isDigit c = true := hip c (by simp)
  have hp : c ≠ '+' := digit_ne c '+' hc (by decide)
  have hm : c ≠ '-' := digit_ne c '-' hc (by decide)
  have hru : readUnsigned (c :: cs ++ '.' :: fp)
      = some (digitsValue (c :: cs ++ fp), -(fp.length : Int)) := by
    unfold readUnsigned
    rw [readDigits_append (c :: cs) ('.' :: fp) hip
      (by intro d r h; injection h with h1 _; subst h1; decide) 0 0]
    have h2 := readDigits_append fp [] hfp (by intro d r h; cases h)
      (List.foldl (fun a c => a * 10 + digitVal c) 0 (c :: cs)) 0
    rw [List.append_nil] at h2
    split
    · rename_i ip nip rest heq
      simp only [Prod.mk.injEq, List.cons.injEq, true_and] at heq
      obtain ⟨rfl, rfl, rfl⟩ := heq
      rw [h2]
      have h3 : ¬ (0 + (c :: cs).length + (0 + fp.length) = 0) := by simp
      simp only [h3, if_false]
      simp [readExponentPart, digitsValue, List.foldl_append]
    · rename_i ip nip rest hno heq
      simp only [Prod.mk.injEq] at heq
      obtain ⟨rfl, rfl, rfl⟩ := heq
      exact (hno _ rfl).elim
  unfold strconvParseFloat
  have hdata : (String.mk (c :: cs ++ '.' :: fp)).data = c :: (cs ++ '.' :: fp) := rfl
  rw [hdata, parseSpecial_digit c _ hc]
  dsimp only
  split
  · rename_i rest heq
    injection heq with h1 _
    exact absurd h1 hp
  · rename_i rest heq
    injection heq with h1 _
    exact absurd h1 hm
  · rw [show c :: (cs ++ '.' :: fp) = c :: cs ++ '.' :: fp from rfl, hru]

/-- The conversion `int(x)` of a non-negative finite `float64` below `2^63`
is the integer part of its value. -/
theorem toInt_floor (m : Nat) (e : Int) (h : (m : ℚ) * (2 : ℚ) ^ e < 2 ^ 63) :
    ((Float64.toInt (.finite false m e) : Int) : ℚ) ≤ (m : ℚ) * (2 : ℚ) ^ e
      ∧ (m : ℚ) * (2 : ℚ) ^ e < ((Float64.toInt (.finite false m e) : Int) : ℚ) + 1 := by
  have hd : 0 < 2 ^ (-e).toNat := by positivity
  have hv : (m : ℚ) * (2 : ℚ) ^ e
      = ((m * 2 ^ e.toNat : ℕ) : ℚ) / ((2 ^ (-e).toNat : ℕ) : ℚ) := by
    rw [two_zpow_split e]
    push_cast
    ring
  have ht : Float64.toInt (.finite false m e)
      = if m * 2 ^ e.toNat / 2 ^ (-e).toNat < 2 ^ 63
        then ((m * 2 ^ e.toNat / 2 ^ (-e).toNat : ℕ) : Int) else -(2 ^ 63) := by
    simp [Float64.toInt]
  rw [hv] at h
  rw [hv, ht]
  clear ht hv
  generalize m * 2 ^ e.toNat = n at h ⊢
  have hdm : n = n / 2 ^ (-e).toNat * 2 ^ (-e).toNat + n % 2 ^ (-e).toNat := by
    have := Nat.div_add_mod n (2 ^ (-e).toNat)
    rw [Nat.mul_comm] at this
    exact this.symm
  have hmod := Nat.mod_lt n hd
  generalize 2 ^ (-e).toNat = d at hd hdm hmod h ⊢
  generalize n / d = q at hdm ⊢
  generalize n % d = r at hdm hmod
  subst hdm
  have hdq : (0 : ℚ) < (d : ℚ) := by exact_mod_cast hd
  have hle : (q : ℚ) ≤ ((q * d + r : ℕ) : ℚ) / (d : ℚ) := by
    rw [le_div_iff₀ hdq]
    push_cast
    have : (0 : ℚ) ≤ r := by positivity
    linarith
  have hlt : ((q * d + r : ℕ) : ℚ) / (d : ℚ) < (q : ℚ) + 1 := by
    rw [div_lt_iff₀ hdq]
    push_cast
    have : (r : ℚ) < d := by exact_mod_cast hmod
    linarith
  have hq : q < 2 ^ 63 := by
    have : (q : ℚ) < 2 ^ 63 := lt_of_le_of_lt hle h
    exact_mod_cast this
  rw [if_pos hq]
  simp only [Int.cast_natCast]
  exact ⟨hle, hlt⟩

theorem floor_near (r : Int) (v y : ℚ) (h1 : (r : ℚ) ≤ v) (h2 : v < (r : ℚ) + 1)
    (h3 : |v - y| < 1 / 2) : |r - ⌊y⌋| ≤ 1 := by
  have hy1 := Int.floor_le y
  have hy2 := Int.lt_floor_add_one y
  rw [abs_lt] at h3
  have ha : (r : ℚ) < ((⌊y⌋ + 2 : Int) : ℚ) := by push_cast; linarith
  have hb : ((⌊y⌋ : Int) : ℚ) < ((r + 2 : Int) : ℚ) := by push_cast; linarith
  have ha' : r < ⌊y⌋ + 2 := by exact_mod_cast ha
  have hb' : ⌊y⌋ < r + 2 := by exact_mod_cast hb
  rw [abs_le]
  constructor <;> omega

theorem round_zero (neg : Bool) (den : Nat) :
    Float64.round neg 0 den = .finite neg 0 (-1074) := by
  unfold Float64.round
  rw [if_pos rfl]

theorem toInt_zero (e : Int) : Float64.toInt (.finite false 0 e) = 0 := by
  have h : 0 * 2 ^ e.toNat / 2 ^ (-e).toNat = 0 := by
    rw [Nat.zero_mul, Nat.zero_div]
  simp only [Float64.toInt, h]
  decide

theorem mul_zero_thousand :
    Float64.toInt (Float64.mul (.finite false 0 (-1074)) (Float64.ofInt 1000)) = 0 := by
  rw [ofInt_thousand]
  have h : 0 * (1000 * 2 ^ 43) * 2 ^ ((-1074 : Int) + -43).toNat = 0 := by
    rw [Nat.zero_mul, Nat.zero_mul]
  simp only [Float64.mul, Bool.xor_false, h, round_zero, toInt_zero]

/-- The milliseconds computed from `mant / 10^k` seconds are within one of
`floor (mant / 10^k * 1000)`, for less than `2^51` milliseconds. -/
theorem parsed_length_near (mant k : Nat) (hlt : (mant : ℚ) / 10 ^ k * 1000 < 2 ^ 51) :
    ∃ f, decimalToFloat false mant (-(k : Int)) = .ok f
      ∧ |Float64.toInt (Float64.mul f (Float64.ofInt 1000)) - ⌊(mant : ℚ) / 10 ^ k * 1000⌋|
          ≤ 1 := by
  have hk1 : (-(k : Int)).toNat = 0 := by omega
  have hk2 : (-(-(k : Int))).toNat = k := by omega
  unfold decimalToFloat
  rw [hk1, hk2, pow_zero, Nat.mul_one]
  by_cases hm0 : mant = 0
  · subst hm0
    refine ⟨.finite false 0 (-1074), by simp [Float64.round], ?_⟩
    rw [mul_zero_thousand]
    simp
  have hmpos : 0 < mant := Nat.pos_of_ne_zero hm0
  have hden : 0 < 10 ^ k := by positivity
  have hx0 : (0 : ℚ) ≤ (mant : ℚ) / 10 ^ k := by positivity
  have hx : ((mant : ℕ) : ℚ) / ((10 ^ k : ℕ) : ℚ) < 2 ^ 42 := by
    push_cast
    have : (mant : ℚ) / 10 ^ k * 1000 < 2 ^ 42 * 1000 := by
      calc (mant : ℚ) / 10 ^ k * 1000 < 2 ^ 51 := hlt
        _ ≤ 2 ^ 42 * 1000 := by norm_num
    linarith
  obtain ⟨m1, e1, hr1, hv1⟩ := round_value mant (10 ^ k) 42 hmpos hden hx (by norm_num)
  rw [hr1]
  refine ⟨.finite false m1 e1, rfl, ?_⟩
  push_cast at hv1
  have h12 : (2 : ℚ) ^ (-12 : Int) = 1 / 4096 := by norm_num [zpow_neg]
  rw [h12] at hv1
  rw [abs_le] at hv1
  rw [ofInt_thousand]
  simp only [Float64.mul, Bool.xor_false]
  by_cases hm1 : m1 = 0
  · subst hm1
    have hr0 : Float64.round false (0 * (1000 * 2 ^ 43) * 2 ^ (e1 + -43).toNat)
        (2 ^ (-(e1 + -43)).toNat) = .finite false 0 (-1074) := by
      rw [Nat.zero_mul, Nat.zero_mul, round_zero]
    rw [hr0, toInt_zero]
    have hfl : ⌊(mant : ℚ) / 10 ^ k * 1000⌋ = 0 := by
      rw [Int.floor_eq_iff]
      simp only [Nat.cast_zero, zero_mul, zero_sub, sub_zero] at hv1
      constructor
      · push_cast; positivity
      · push_cast; linarith [hv1.1, hv1.2]
    rw [hfl]
    simp
  have hm1pos : 0 < m1 := Nat.pos_of_ne_zero hm1
  have hnum2 : 0 < m1 * (1000 * 2 ^ 43) * 2 ^ (e1 + -43).toNat := by positivity
  have hden2 : 0 < 2 ^ (-(e1 + -43)).toNat := by positivity
  have hp : ((m1 * (1000 * 2 ^ 43) * 2 ^ (e1 + -43).toNat : ℕ) : ℚ)
      / ((2 ^ (-(e1 + -43)).toNat : ℕ) : ℚ) = 1000 * ((m1 : ℚ) * (2 : ℚ) ^ e1) := by
    have h1 := two_zpow_split (e1 + -43)
    have h2 : (2 : ℚ) ^ (e1 + -43) = (2 : ℚ) ^ e1 / 2 ^ 43 := by
      rw [zpow_add₀ (by norm_num : (2 : ℚ) ≠ 0), zpow_neg]
      norm_num
      ring
    push_cast
    have h3 : (2 : ℚ) ^ (e1 + -43).toNat / (2 : ℚ) ^ (-(e1 + -43)).toNat
        = (2 : ℚ) ^ e1 / 2 ^ 43 := by rw [← h1, h2]
    rw [mul_div_assoc, h3]
    field_simp
    ring
  have hp52 : ((m1 * (1000 * 2 ^ 43) * 2 ^ (e1 + -43).toNat : ℕ) : ℚ)
      / ((2 ^ (-(e1 + -43)).toNat : ℕ) : ℚ) < 2 ^ 52 := by
    rw [hp]
    have : (mant : ℚ) / 10 ^ k * 1000 < 2 ^ 51 := hlt
    have h51 : (2 : ℚ) ^ 52 = 2 * 2 ^ 51 := by norm_num
    have hpos51 : (1 : ℚ) ≤ 2 ^ 51 := by norm_num
    linarith [hv1.1, hv1.2]
  obtain ⟨m2, e2, hr2, hv2⟩ := round_value _ _ 52 hnum2 hden2 hp52 (by norm_num)
  rw [hr2]
  rw [hp] at hv2
  have h14 : (2 : ℚ) ^ ((52 : ℕ) - 54 : Int) = 1 / 4 := by norm_num [zpow_neg]
  rw [h14, abs_le] at hv2
  have hv63 : (m2 : ℚ) * (2 : ℚ) ^ e2 < 2 ^ 63 := by
    have : (mant : ℚ) / 10 ^ k * 1000 < 2 ^ 51 := hlt
    have h63 : (2 : ℚ) ^ 63 = 4096 * 2 ^ 51 := by norm_num
    have hpos51 : (1 : ℚ) ≤ 2 ^ 51 := by norm_num
    linarith [hv1.1, hv1.2, hv2.1, hv2.2]
  obtain ⟨hf1, hf2⟩ := toInt_floor m2 e2 hv63
  refine floor_near _ ((m2 : ℚ) * (2 : ℚ) ^ e2) _ hf1 hf2 ?_
  rw [abs_lt]
  constructor <;> linarith [hv1.1, hv1.2, hv2.1, hv2.2]

/-! ## The claim on `getVideoLength` -/

theorem strconvParseFloat_digits (ip : List Char) (hne : ip ≠ [])
    (hip : ∀ c ∈ ip, isDigit c = true) :
    strconvParseFloat (String.mk ip) = decimalToFloat false (digitsValue ip) 0 := by
  obtain ⟨c, cs, rfl⟩ : ∃ c cs, ip = c :: cs := by
    cases ip with
    | nil => exact absurd rfl hne
    | cons c cs => exact ⟨c, cs, rfl⟩
  have hc : isDigit c = true := hip c (by simp)
  have hp : c ≠ '+' := digit_ne c '+' hc (by decide)
  have hm : c ≠ '-' := digit_ne c '-' hc (by decide)
  have hru : readUnsigned (c :: cs) = some (digitsValue (c :: cs), 0) := by
    unfold readUnsigned
    have h2 := readDigits_append (c :: cs) [] hip (by intro d r h; cases h) 0 0
    rw [List.append_nil] at h2
    rw [h2]
    split
    · rename_i ip nip rest heq
      simp only [Prod.mk.injEq] at heq
      obtain ⟨-, -, h⟩ := heq
      cases h
    · rename_i ip nip rest hno heq
      simp only [Prod.mk.injEq] at heq
      obtain ⟨rfl, rfl, rfl⟩ := heq
      simp [readExponentPart, digitsValue]
  unfold strconvParseFloat
  have hdata : (String.mk (c :: cs)).data = c :: cs := rfl
  rw [hdata, parseSpecial_digit c _ hc]
  dsimp only
  split
  · rename_i rest heq
    injection heq with h1 _
    exact absurd h1 hp
  · rename_i rest heq
    injection heq with h1 _
    exact absurd h1 hm
  · rw [hru]

theorem digits_no_cr (ds : List Char) (h : ∀ c ∈ ds, isDigit c = true) : '\r' ∉ ds := by
  intro hm
  have := h _ hm
  revert this
  decide

/-- What `getVideoLength` returns once ffprobe has answered `output`. -/
theorem getVideoLength_of_output {σ : Type} (sys : Sys σ)
    (fileName engineDir tempDir : String) (w : World σ) (ffprobe output : String)
    (habs : sys.abs (engineDir ++ "\\ffprobe.exe") = .ok ffprobe)
    (hrun : (sys.run ffprobe
        ["-v", "error", "-show_entries", "format=duration",
         "-of", "default=noprint_wrappers=1:nokey=1", fileName] tempDir w.os).1 = .ok output) :
    (getVideoLength sys fileName engineDir tempDir w).1
      = match strconvParseFloat (stringsReplace output) with
        | .error err =>
            .error (.anirip ("There was an error parsing the length of " ++ fileName) (.num err))
        | .ok length => .ok (Float64.toInt (Float64.mul length (Float64.ofInt 1000))) := by
  unfold getVideoLength filepathAbs cmdOutput
  rw [habs]
  dsimp only
  rw [hrun]
  dsimp only
  split <;> simp_all

/-- The probe text `ip.fp` or `ip`, with or without the final line break, cleaned. -/
theorem clean_decimal (ip fp output : String)
    (hout : output = ip ++ "." ++ fp ∨ output = ip ++ "." ++ fp ++ "\r\n"
      ∨ (fp = "" ∧ (output = ip ∨ output = ip ++ "\r\n")))
    (hip : ∀ c ∈ ip.data, isDigit c = true) (hfp : ∀ c ∈ fp.data, isDigit c = true) :
    stringsReplace output = String.mk (ip.data ++ '.' :: fp.data)
      ∨ (fp = "" ∧ stringsReplace output = String.mk ip.data) := by
  have h1 := digits_no_cr ip.data hip
  have h2 := digits_no_cr fp.data hfp
  have hcr : '\r' ∉ ip.data ++ '.' :: fp.data := by
    simp only [List.mem_append, List.mem_cons, not_or]
    exact ⟨h1, by decide, h2⟩
  rcases hout with h | h | ⟨hf, h | h⟩
  · left
    subst h
    have : (ip ++ "." ++ fp).data = ip.data ++ '.' :: fp.data := by simp [String.data_append]
    simp only [stringsReplace, this, replaceCRLF_of_no_cr _ hcr]
  · left
    subst h
    have : (ip ++ "." ++ fp ++ "\r\n").data = (ip.data ++ '.' :: fp.data) ++ ['\r', '\n'] := by
      simp [String.data_append]
    simp only [stringsReplace, this, replaceCRLF_append_crlf _ hcr]
  · right
    subst h
    exact ⟨hf, by simp only [stringsReplace, replaceCRLF_of_no_cr _ h1]⟩
  · right
    subst h
    have : (ip ++ "\r\n").data = ip.data ++ ['\r', '\n'] := by simp [String.data_append]
    exact ⟨hf, by simp only [stringsReplace, this, replaceCRLF_append_crlf _ h1]⟩

/-- The float a decimal text is read as: the nearest `float64` to `mant / 10^k`. -/
theorem decimalToFloat_eq_round (mant k : Nat) (f : Float64)
    (h : decimalToFloat false mant (-(k : Int)) = .ok f) :
    f = Float64.round false mant (10 ^ k) := by
  have hk1 : (-(k : Int)).toNat = 0 := by omega
  have hk2 : (-(-(k : Int))).toNat = k := by omega
  unfold decimalToFloat at h
  rw [hk1, hk2, pow_zero, Nat.mul_one] at h
  split at h
  · rename_i n m e heq
    rw [heq]
    injection h with h
    exact h.symm
  · cases h

set_option maxRecDepth 100000 in
/-- C3 (amended): when ffprobe answers a non-negative decimal number of
seconds `s`, written `ip.fp` or `ip` with decimal digits and with or without a
final line break, and `s * 1000 < 2^51`, the text is read as the `float64`
nearest to `s` and `getVideoLength` returns without error the integer part of
the `float64` product of that number and 1000.  This integer is within 1 of
`floor (s * 1000)`, and it is not always the floor: `123.456000` gives 123456
and `1.9999` gives 1999, while `1.001` gives 1000. -/
theorem getVideoLength_truncated_product {σ : Type} (sys : Sys σ)
    (fileName engineDir tempDir : String) (w : World σ) (ffprobe output ip fp : String)
    (habs : sys.abs (engineDir ++ "\\ffprobe.exe") = .ok ffprobe)
    (hrun : (sys.run ffprobe
        ["-v", "error", "-show_entries", "format=duration",
         "-of", "default=noprint_wrappers=1:nokey=1", fileName] tempDir w.os).1 = .ok output)
    (hout : output = ip ++ "." ++ fp ∨ output = ip ++ "." ++ fp ++ "\r\n"
      ∨ (fp = "" ∧ (output = ip ∨ output = ip ++ "\r\n")))
    (hne : ip.data ≠ []) (hip : ∀ c ∈ ip.data, isDigit c = true)
    (hfp : ∀ c ∈ fp.data, isDigit c = true)
    (hlt : decimalSeconds ip.data fp.data * 1000 < 2 ^ 51) :
    strconvParseFloat (stringsReplace output)
        = .ok (Float64.round false (digitsValue (ip.data ++ fp.data)) (10 ^ fp.data.length))
      ∧ (getVideoLength sys fileName engineDir tempDir w).1
        = .ok (Float64.toInt (Float64.mul
            (Float64.round false (digitsValue (ip.data ++ fp.data)) (10 ^ fp.data.length))
            (Float64.ofInt 1000)))
      ∧ |Float64.toInt (Float64.mul
            (Float64.round false (digitsValue (ip.data ++ fp.data)) (10 ^ fp.data.length))
            (Float64.ofInt 1000))
          - ⌊decimalSeconds ip.data fp.data * 1000⌋| ≤ 1
      ∧ (ip = "123" → fp = "456000" →
          (getVideoLength sys fileName engineDir tempDir w).1 = .ok 123456)
      ∧ (ip = "1" → fp = "9999" →
          (getVideoLength sys fileName engineDir tempDir w).1 = .ok 1999)
      ∧ (ip = "1" → fp = "001" →
          (getVideoLength sys fileName engineDir tempDir w).1 = .ok 1000) := by
  have hres := getVideoLength_of_output sys fileName engineDir tempDir w ffprobe output habs hrun
  have hparse : strconvParseFloat (stringsReplace output)
      = decimalToFloat false (digitsValue (ip.data ++ fp.data)) (-(fp.data.length : Int)) := by
    rcases clean_decimal ip fp output hout hip hfp with h | ⟨hf, h⟩
    · rw [h]
      exact strconvParseFloat_decimal ip.data fp.data hne hip hfp
    · rw [h, hf, strconvParseFloat_digits ip.data hne hip]
      simp
  obtain ⟨f, hf, hnear⟩ := parsed_length_near (digitsValue (ip.data ++ fp.data))
    fp.data.length hlt
  have hfr := decimalToFloat_eq_round _ _ f hf
  rw [hparse] at hres ⊢
  rw [hf] at hres
  subst hfr
  have hval : (getVideoLength sys fileName engineDir tempDir w).1
      = .ok (Float64.toInt (Float64.mul
          (Float64.round false (digitsValue (ip.data ++ fp.data)) (10 ^ fp.data.length))
          (Float64.ofInt 1000))) := hres
  refine ⟨hf, hval, hnear, ?_, ?_, ?_⟩
  · rintro rfl rfl
    rw [hval]
    decide
  · rintro rfl rfl
    rw [hval]
    decide
  · rintro rfl rfl
    rw [hval]
    decide

set_option maxRecDepth 100000 in
/-- C3, at a concrete input: ffprobe answers `123.456000` and a line break. -/
theorem getVideoLength_truncated_product_witness :
    (getVideoLength (fileSys (scriptedTool "123.456000\r\n" "" "")) "untrimmed.episode.mkv"
        "engine" "temp" (World.init freshFiles)).1 = .ok 123456 :=
  (getVideoLength_truncated_product (fileSys (scriptedTool "123.456000\r\n" "" ""))
    "untrimmed.episode.mkv" "engine" "temp" (World.init freshFiles)
    "C:\\anirip\\engine\\ffprobe.exe" "123.456000\r\n" "123" "456000"
    (by decide) (by decide) (Or.inr (Or.inl (by decide))) (by decide) (by decide) (by decide)
    (by
      rw [decimalSeconds, show digitsValue ("123".data ++ "456000".data) = 123456000 by decide,
        show "456000".data.length = 6 by decide]
      norm_num)).2.2.2.1 rfl rfl

set_option maxRecDepth 100000 in
/-- C3 fails as stated: when ffprobe answers `1.001`, `getVideoLength` returns
1000, while `floor (1.001 * 1000)` is 1001: the `float64` nearest to 1.001 is
below it, and so is its product with 1000. -/
theorem getVideoLength_floor_counterexample :
    (getVideoLength (fileSys (scriptedTool "1.001" "" "")) "untrimmed.episode.mkv"
        "engine" "temp" (World.init freshFiles)).1 = .ok 1000
      ∧ ⌊decimalSeconds "1".data "001".data * 1000⌋ = 1001 := by
  refine ⟨by decide, ?_⟩
  have : decimalSeconds "1".data "001".data * 1000 = 1001 := by
    rw [decimalSeconds, show digitsValue ("1".data ++ "001".data) = 1001 by decide,
      show "001".data.length = 3 by decide]
    norm_num
  rw [this]
  exact Int.floor_intCast 1001

end Anirip
